import Mathlib

/-!
Verification of the CompScope geographic/occupation resolution and wage aggregation pipeline.

Shallow embedding of the core logic of the CompScope repository:

* `src/utils/soc.py`       — SOC-code normalization (`SOCMapper.clean`)
* `src/data_sources/onet.py` — occupation matcher (`ONETClient.search_occupations`),
  including a faithful model of Python `difflib.SequenceMatcher.ratio()`
  (Ratcliff/Obershelp matching blocks; autojunk never fires because every
  table key is far shorter than 200 characters)
* `src/utils/geo.py`       — geography resolver (`resolve_msa`) with its static tables
* `src/data_sources/jsearch.py` — live-postings adapter (`JSearchClient._fetch_salary`)
* `src/data_sources/bls.py` — BLS OEWS adapter gate (`BLSClient.get_oews`)
* `src/app.py`             — median collection and blending (lines 135–273)

Python floats are modelled as exact rationals (`ℚ`); Python `round` (banker's
rounding, half to even) is modelled exactly by `pythonRound`.  Python strings are
modelled as `List Char`; `lower`/`upper`/`strip`/`\s` are modelled on the ASCII
range, which covers every string occurring in the program's static tables.
External collaborators (HTTP responses, the Census geocoder, the O*NET keyword
API) are parameters of the embedded functions: the source catches their failures
and treats them as absent data, so a parameter value models each possible
collaborator behaviour.
-/

set_option maxHeartbeats 4000000

abbrev LC := List Char

/-- Python `round(q)` on a rational: round half to even (banker's rounding).
Models CPython `round` applied to an exactly-represented value.  Implemented
with integer arithmetic only (the library's `ℚ` field operations are
`@[irreducible]`, which would block kernel evaluation): `q.num / q.den` is
`⌊q⌋` and `q.num % q.den` the numerator of the fractional part. -/
def pythonRound (q : ℚ) : ℤ :=
  let f := q.num / (q.den : ℤ)
  let m := q.num % (q.den : ℤ)
  if 2 * m < (q.den : ℤ) then f
  else if (q.den : ℤ) < 2 * m then f + 1
  else if f % 2 = 0 then f else f + 1

/-- Multiplication `q * k` built without the irreducible `ℚ` multiplication
(`Rat.divInt` evaluates in the kernel). -/
def qmulInt (q : ℚ) (k : ℤ) : ℚ := Rat.divInt (q.num * k) (q.den : ℤ)

/-- Python `round(q, 3)`: round to 3 decimal places, half to even. -/
def round3 (q : ℚ) : ℚ := Rat.divInt (pythonRound (qmulInt q 1000)) 1000

theorem qmulInt_eq (q : ℚ) (k : ℤ) : qmulInt q k = q * (k : ℚ) := by
  rw [qmulInt, Rat.divInt_eq_div]
  push_cast
  conv_rhs => rw [← Rat.num_div_den q]
  ring

theorem round3_eq (q : ℚ) : round3 q = (pythonRound (q * 1000) : ℚ) / 1000 := by
  rw [round3, qmulInt_eq, Rat.divInt_eq_div]
  norm_num

theorem pythonRound_le {q : ℚ} {n : ℤ} (h : q < (n : ℚ) + 1/2) : pythonRound q ≤ n := by
  have hdpos : (0 : ℤ) < (q.den : ℤ) := by exact_mod_cast q.pos
  have heq : (q.den : ℤ) * (q.num / (q.den : ℤ)) + q.num % (q.den : ℤ) = q.num :=
    Int.ediv_add_emod _ _
  have hm0 : 0 ≤ q.num % (q.den : ℤ) := Int.emod_nonneg _ (by omega)
  have hm1 : q.num % (q.den : ℤ) < (q.den : ℤ) := Int.emod_lt_of_pos _ hdpos
  have hkey : 2 * q.num < (2 * n + 1) * (q.den : ℤ) := by
    have hdq : (0 : ℚ) < (q.den : ℚ) := by exact_mod_cast hdpos
    have hquot : ((q.num : ℚ)) < ((n : ℚ) + 1/2) * (q.den : ℚ) :=
      (div_lt_iff₀ hdq).mp (by rw [Rat.num_div_den]; exact h)
    have h2 : (2 * q.num : ℚ) < ((2 * n + 1 : ℤ) : ℚ) * (q.den : ℚ) := by
      push_cast
      linarith
    exact_mod_cast h2
  unfold pythonRound
  simp only []
  split_ifs with h1 h2 h3
  · -- fractional part below one half: ⌊q⌋ ≤ n
    by_contra hc
    push_neg at hc
    have hge : n + 1 ≤ q.num / (q.den : ℤ) := Int.add_one_le_iff.mpr hc
    nlinarith [mul_le_mul_of_nonneg_left hge (le_of_lt hdpos)]
  · -- fractional part above one half: ⌊q⌋ + 1 ≤ n
    have hhalf : (q.den : ℤ) ≤ 2 * (q.num % (q.den : ℤ)) := by omega
    have hlt : q.num / (q.den : ℤ) < n := by
      by_contra hc
      push_neg at hc
      nlinarith [mul_le_mul_of_nonneg_left hc (le_of_lt hdpos)]
    omega
  · -- exactly one half, even floor: ⌊q⌋ ≤ n
    have hhalf : (q.den : ℤ) ≤ 2 * (q.num % (q.den : ℤ)) := by omega
    have hlt : q.num / (q.den : ℤ) < n := by
      by_contra hc
      push_neg at hc
      nlinarith [mul_le_mul_of_nonneg_left hc (le_of_lt hdpos)]
    omega
  · -- exactly one half, odd floor: ⌊q⌋ + 1 ≤ n
    have hhalf : (q.den : ℤ) ≤ 2 * (q.num % (q.den : ℤ)) := by omega
    have hlt : q.num / (q.den : ℤ) < n := by
      by_contra hc
      push_neg at hc
      nlinarith [mul_le_mul_of_nonneg_left hc (le_of_lt hdpos)]
    omega

/-! ## Python `difflib.SequenceMatcher` (Ratcliff/Obershelp), as used by
`ONETClient.search_occupations` (`src/data_sources/onet.py`, line 462).

`SequenceMatcher(None, a, b).ratio()` computes `2 * M / (len(a) + len(b))`
where `M` is the total size of the matching blocks found by recursively
taking the longest matching block (maximal size, then earliest position in
`a`, then earliest position in `b`) and recursing on the pieces to its left
and to its right.  With no junk (autojunk needs `len(b) >= 200`; every table
key is shorter) this is exactly the computation below. -/

/-- Length of the common prefix of two character lists. -/
def cpl : LC → LC → ℕ
  | a :: as, b :: bs => if a = b then cpl as bs + 1 else 0
  | _, _ => 0

/-- All candidate matching blocks of `a` and `b`: for each pair of start
positions `(i, j)`, the longest run starting there, listed as
`(size, i, j)` in scan order (`i` ascending, then `j` ascending). -/
def candList (a b : LC) : List (ℕ × ℕ × ℕ) :=
  (List.range a.length).flatMap fun i =>
    let ai := a.drop i
    (List.range b.length).map fun j => (cpl ai (b.drop j), i, j)

/-- Keep the first candidate that strictly improves on the best size so far
(difflib updates its best block only on `k > bestsize`). -/
def pickBest (init : ℕ × ℕ × ℕ) (l : List (ℕ × ℕ × ℕ)) : ℕ × ℕ × ℕ :=
  l.foldl (fun best c => if best.1 < c.1 then c else best) init

/-- Model of `find_longest_match` over whole lists: the matching block of maximal
size, earliest in `a`, then earliest in `b`; `(0, 0, 0)` if none. -/
def findLongestMatch (a b : LC) : ℕ × ℕ × ℕ := pickBest (0, 0, 0) (candList a b)

/-- Total size of the matching blocks (`get_matching_blocks` recursion),
with explicit fuel; recursion depth is bounded by `a.length`. -/
def matchTotalAux : ℕ → LC → LC → ℕ
  | 0, _, _ => 0
  | fuel + 1, a, b =>
    let m := findLongestMatch a b
    if m.1 = 0 then 0
    else matchTotalAux fuel (a.take m.2.1) (b.take m.2.2) + m.1 +
         matchTotalAux fuel (a.drop (m.2.1 + m.1)) (b.drop (m.2.2 + m.1))

def matchTotal (a b : LC) : ℕ := matchTotalAux (a.length + 1) a b

/-- Model of `SequenceMatcher(None, a, b).ratio()` as an exact rational
(`difflib._calculate_ratio`: `2*M/T` for `T > 0`, else `1.0`);
built with `Rat.divInt` so that it evaluates in the kernel. -/
def similarity (a b : LC) : ℚ :=
  if a.length + b.length = 0 then 1
  else Rat.divInt (2 * (matchTotal a b : ℤ)) ((a.length : ℤ) + (b.length : ℤ))

theorem cpl_le_left : ∀ a b : LC, cpl a b ≤ a.length := by
  intro a
  induction a with
  | nil => intro b; cases b <;> simp [cpl]
  | cons x xs ih =>
    intro b
    cases b with
    | nil => simp [cpl]
    | cons y ys =>
      simp only [cpl, List.length_cons]
      split
      · exact Nat.succ_le_succ (ih ys)
      · exact Nat.zero_le _

theorem cpl_le_right : ∀ a b : LC, cpl a b ≤ b.length := by
  intro a
  induction a with
  | nil => intro b; cases b <;> simp [cpl]
  | cons x xs ih =>
    intro b
    cases b with
    | nil => simp [cpl]
    | cons y ys =>
      simp only [cpl, List.length_cons]
      split
      · exact Nat.succ_le_succ (ih ys)
      · exact Nat.zero_le _

theorem cpl_take : ∀ a b : LC, a.take (cpl a b) = b.take (cpl a b) := by
  intro a
  induction a with
  | nil => intro b; cases b <;> simp [cpl]
  | cons x xs ih =>
    intro b
    cases b with
    | nil => simp [cpl]
    | cons y ys =>
      simp only [cpl]
      split
      · next hxy => simp [List.take_succ_cons, hxy, ih ys]
      · simp

theorem pickBest_mem : ∀ (l : List (ℕ × ℕ × ℕ)) (init : ℕ × ℕ × ℕ),
    pickBest init l = init ∨ pickBest init l ∈ l := by
  intro l
  induction l with
  | nil => intro init; left; rfl
  | cons c l ih =>
    intro init
    simp only [pickBest, List.foldl_cons] at *
    rcases ih (if init.1 < c.1 then c else init) with h | h
    · rw [h]
      split
      · right; exact List.mem_cons_self _ _
      · left; rfl
    · right; exact List.mem_cons_of_mem _ h

/-- A triple `(k, i, j)` is a valid matching block of `a` and `b`. -/
def ValidBlock (a b : LC) (m : ℕ × ℕ × ℕ) : Prop :=
  m.2.1 + m.1 ≤ a.length ∧ m.2.2 + m.1 ≤ b.length ∧
  (a.drop m.2.1).take m.1 = (b.drop m.2.2).take m.1

theorem validBlock_candList (a b : LC) : ∀ m ∈ candList a b, ValidBlock a b m := by
  intro m hm
  simp only [candList, List.mem_flatMap, List.mem_map, List.mem_range] at hm
  obtain ⟨i, hi, j, hj, he⟩ := hm
  rw [← he]
  dsimp only [ValidBlock]
  refine ⟨?_, ?_, ?_⟩
  · have h1 : cpl (a.drop i) (b.drop j) ≤ (a.drop i).length := cpl_le_left _ _
    simp only [List.length_drop] at h1
    omega
  · have h1 : cpl (a.drop i) (b.drop j) ≤ (b.drop j).length := cpl_le_right _ _
    simp only [List.length_drop] at h1
    omega
  · exact cpl_take _ _

theorem findLongestMatch_valid (a b : LC) : ValidBlock a b (findLongestMatch a b) := by
  rcases pickBest_mem (candList a b) (0, 0, 0) with h | h
  · unfold findLongestMatch
    rw [h]
    exact ⟨Nat.zero_le _, Nat.zero_le _, by simp⟩
  · exact validBlock_candList a b _ h

theorem matchTotalAux_le : ∀ (fuel : ℕ) (a b : LC),
    matchTotalAux fuel a b ≤ min a.length b.length := by
  intro fuel
  induction fuel with
  | zero => intro a b; simp [matchTotalAux]
  | succ fuel ih =>
    intro a b
    have hv := findLongestMatch_valid a b
    obtain ⟨h1, h2, _⟩ := hv
    simp only [matchTotalAux]
    split
    · exact Nat.zero_le _
    · next hk =>
      have hL := ih (a.take (findLongestMatch a b).2.1) (b.take (findLongestMatch a b).2.2)
      have hR := ih (a.drop ((findLongestMatch a b).2.1 + (findLongestMatch a b).1))
                    (b.drop ((findLongestMatch a b).2.2 + (findLongestMatch a b).1))
      simp only [List.length_take, List.length_drop] at hL hR
      omega

theorem eq_of_matchTotalAux : ∀ (fuel : ℕ) (a b : LC),
    2 * matchTotalAux fuel a b = a.length + b.length → a = b := by
  intro fuel
  induction fuel with
  | zero =>
    intro a b h
    simp only [matchTotalAux, Nat.mul_zero] at h
    have ha : a.length = 0 := by omega
    have hb : b.length = 0 := by omega
    rw [List.length_eq_zero] at ha hb
    rw [ha, hb]
  | succ fuel ih =>
    intro a b h
    obtain ⟨h1, h2, h3⟩ := findLongestMatch_valid a b
    simp only [matchTotalAux] at h
    by_cases hk : (findLongestMatch a b).1 = 0
    · rw [if_pos hk] at h
      simp at h
      have ha : a.length = 0 := by omega
      have hb : b.length = 0 := by omega
      rw [List.length_eq_zero] at ha hb
      rw [ha, hb]
    · rw [if_neg hk] at h
      set k := (findLongestMatch a b).1 with hkdef
      set i := (findLongestMatch a b).2.1 with hidef
      set j := (findLongestMatch a b).2.2 with hjdef
      have hL := matchTotalAux_le fuel (a.take i) (b.take j)
      have hR := matchTotalAux_le fuel (a.drop (i + k)) (b.drop (j + k))
      simp only [List.length_take, List.length_drop] at hL hR
      have hLeq : 2 * matchTotalAux fuel (a.take i) (b.take j) =
          (a.take i).length + (b.take j).length := by
        simp only [List.length_take]
        omega
      have hReq : 2 * matchTotalAux fuel (a.drop (i + k)) (b.drop (j + k)) =
          (a.drop (i + k)).length + (b.drop (j + k)).length := by
        simp only [List.length_drop]
        omega
      have heqL : a.take i = b.take j := ih _ _ hLeq
      have heqR : a.drop (i + k) = b.drop (j + k) := ih _ _ hReq
      have hij : i = j := by
        have := congrArg List.length heqL
        simp only [List.length_take] at this
        omega
      have e1 : (a.drop i).drop k = a.drop (i + k) := by
        rw [List.drop_drop]
      have e2 : (b.drop j).drop k = b.drop (j + k) := by
        rw [List.drop_drop]
      calc a = a.take i ++ ((a.drop i).take k ++ (a.drop i).drop k) := by
                rw [List.take_append_drop, List.take_append_drop]
        _ = b.take j ++ ((b.drop j).take k ++ (b.drop j).drop k) := by
                rw [heqL, h3, e1, heqR, ← e2]
        _ = b := by rw [List.take_append_drop, List.take_append_drop]

theorem matchTotal_le (a b : LC) : matchTotal a b ≤ min a.length b.length :=
  matchTotalAux_le _ a b

theorem eq_of_matchTotal {a b : LC} (h : 2 * matchTotal a b = a.length + b.length) :
    a = b := eq_of_matchTotalAux _ a b h

theorem similarity_nonneg (a b : LC) : 0 ≤ similarity a b := by
  unfold similarity
  split
  · norm_num
  · rw [Rat.divInt_eq_div]
    apply div_nonneg
    · push_cast
      positivity
    · push_cast
      positivity

/-- If the two strings differ and `b` is short (every table key is), the
similarity is strictly below `1999/2000`, hence its 3-decimal rounding is
not `1`. -/
theorem similarity_lt_of_ne {a b : LC} (hne : a ≠ b) (hb : b.length ≤ 100) :
    similarity a b < 1999/2000 := by
  unfold similarity
  have hT : a.length + b.length ≠ 0 := by
    intro h0
    apply hne
    have ha : a.length = 0 := by omega
    have hb0 : b.length = 0 := by omega
    rw [List.length_eq_zero] at ha hb0
    rw [ha, hb0]
  rw [if_neg hT, Rat.divInt_eq_div]
  have hM1 : matchTotal a b ≤ min a.length b.length := matchTotal_le a b
  have hM2 : 2 * matchTotal a b ≠ a.length + b.length := fun h => hne (eq_of_matchTotal h)
  have hM3 : 2 * matchTotal a b + 1 ≤ a.length + b.length := by omega
  have hTpos : (0 : ℚ) < ((a.length : ℤ) + (b.length : ℤ) : ℤ) := by
    have h0 : 0 < a.length + b.length := Nat.pos_of_ne_zero hT
    exact_mod_cast h0
  rw [div_lt_iff₀ hTpos]
  push_cast at hTpos ⊢
  by_cases hcase : a.length + b.length ≤ 1999
  · -- small total: 2M + 1 ≤ T ≤ 1999 gives 2M < (1999/2000)·T
    have hq : 2 * ((matchTotal a b : ℚ)) + 1 ≤ (a.length : ℚ) + (b.length : ℚ) := by
      exact_mod_cast hM3
    have hTle : ((a.length : ℚ) + (b.length : ℚ)) ≤ 1999 := by exact_mod_cast hcase
    nlinarith
  · -- large total: 2M ≤ 2·100 = 200 but (1999/2000)·T ≥ (1999/2000)·2000
    push_neg at hcase
    have h200 : 2 * ((matchTotal a b : ℚ)) ≤ 200 := by
      have h0 : 2 * matchTotal a b ≤ 200 := by omega
      exact_mod_cast h0
    have hTge : (2000 : ℚ) ≤ (a.length : ℚ) + (b.length : ℚ) := by
      exact_mod_cast (show 2000 ≤ a.length + b.length from hcase)
    nlinarith

theorem round3_lt_one {q : ℚ} (h : q < 1999/2000) : round3 q < 1 := by
  rw [round3_eq]
  have h1 : q * 1000 < ((999 : ℤ) : ℚ) + 1/2 := by push_cast; linarith
  have h2 : pythonRound (q * 1000) ≤ 999 := pythonRound_le h1
  have h3 : ((pythonRound (q * 1000) : ℤ) : ℚ) ≤ 999 := by exact_mod_cast h2
  linarith
/-! ## Static tables, transcribed from the source.  Python dict literals are
modelled as association lists in literal order; `pyDictGet` looks keys up with
Python's last-occurrence-wins semantics (`dict` keeps the last value for a
duplicated key), and iteration (`for ... in d.items()`) uses literal order,
which coincides with `dict` insertion order here because only `CBSA_TO_BLS`
has duplicate keys and it is never iterated. -/

/-- Curated title → (SOC code, O*NET title) map entries, in literal order,
split into short chunks so that concrete kernel evaluations of the fuzzy
scan stay small; `LOCAL_TITLE_MAP` below is their concatenation. -/
def TITLE_CHUNK_01 : List (LC × LC × LC) := [
  ("software engineer".data, "15-1252.00".data, "Software Developers".data),
  ("software developer".data, "15-1252.00".data, "Software Developers".data),
  ("swe".data, "15-1252.00".data, "Software Developers".data),
  ("junior software engineer".data, "15-1252.00".data, "Software Developers".data),
  ("senior software engineer".data, "15-1252.00".data, "Software Developers".data),
  ("sr software engineer".data, "15-1252.00".data, "Software Developers".data),
  ("sr. software engineer".data, "15-1252.00".data, "Software Developers".data),
  ("staff software engineer".data, "15-1252.00".data, "Software Developers".data),
  ("principal software engineer".data, "15-1252.00".data, "Software Developers".data),
  ("lead software engineer".data, "15-1252.00".data, "Software Developers".data),
  ("software engineer ii".data, "15-1252.00".data, "Software Developers".data),
  ("software engineer iii".data, "15-1252.00".data, "Software Developers".data)
]

def TITLE_CHUNK_02 : List (LC × LC × LC) := [
  ("frontend engineer".data, "15-1252.00".data, "Software Developers".data),
  ("front end engineer".data, "15-1252.00".data, "Software Developers".data),
  ("front-end engineer".data, "15-1252.00".data, "Software Developers".data),
  ("backend engineer".data, "15-1252.00".data, "Software Developers".data),
  ("back end engineer".data, "15-1252.00".data, "Software Developers".data),
  ("back-end engineer".data, "15-1252.00".data, "Software Developers".data),
  ("fullstack engineer".data, "15-1252.00".data, "Software Developers".data),
  ("full stack engineer".data, "15-1252.00".data, "Software Developers".data),
  ("full-stack engineer".data, "15-1252.00".data, "Software Developers".data),
  ("frontend developer".data, "15-1252.00".data, "Software Developers".data),
  ("backend developer".data, "15-1252.00".data, "Software Developers".data),
  ("web developer".data, "15-1252.00".data, "Software Developers".data)
]

def TITLE_CHUNK_03 : List (LC × LC × LC) := [
  ("web engineer".data, "15-1252.00".data, "Software Developers".data),
  ("application developer".data, "15-1252.00".data, "Software Developers".data),
  ("application engineer".data, "15-1252.00".data, "Software Developers".data),
  ("data engineer".data, "15-1243.00".data, "Database Architects".data),
  ("junior data engineer".data, "15-1243.00".data, "Database Architects".data),
  ("senior data engineer".data, "15-1243.00".data, "Database Architects".data),
  ("sr data engineer".data, "15-1243.00".data, "Database Architects".data),
  ("sr. data engineer".data, "15-1243.00".data, "Database Architects".data),
  ("lead data engineer".data, "15-1243.00".data, "Database Architects".data),
  ("staff data engineer".data, "15-1243.00".data, "Database Architects".data),
  ("principal data engineer".data, "15-1243.00".data, "Database Architects".data),
  ("data engineer ii".data, "15-1243.00".data, "Database Architects".data)
]

def TITLE_CHUNK_04 : List (LC × LC × LC) := [
  ("data engineer iii".data, "15-1243.00".data, "Database Architects".data),
  ("database engineer".data, "15-1243.00".data, "Database Architects".data),
  ("database architect".data, "15-1243.00".data, "Database Architects".data),
  ("analytics engineer".data, "15-1243.00".data, "Database Architects".data),
  ("data platform engineer".data, "15-1243.00".data, "Database Architects".data),
  ("data infrastructure engineer".data, "15-1243.00".data, "Database Architects".data),
  ("data scientist".data, "15-2051.00".data, "Data Scientists".data),
  ("senior data scientist".data, "15-2051.00".data, "Data Scientists".data),
  ("sr data scientist".data, "15-2051.00".data, "Data Scientists".data),
  ("lead data scientist".data, "15-2051.00".data, "Data Scientists".data),
  ("staff data scientist".data, "15-2051.00".data, "Data Scientists".data),
  ("principal data scientist".data, "15-2051.00".data, "Data Scientists".data)
]

def TITLE_CHUNK_05 : List (LC × LC × LC) := [
  ("machine learning engineer".data, "15-2051.01".data, "Data Scientists, All Other".data),
  ("ml engineer".data, "15-2051.01".data, "Data Scientists, All Other".data),
  ("senior machine learning engineer".data, "15-2051.01".data, "Data Scientists, All Other".data),
  ("sr ml engineer".data, "15-2051.01".data, "Data Scientists, All Other".data),
  ("ai engineer".data, "15-2051.01".data, "Data Scientists, All Other".data),
  ("applied scientist".data, "15-2051.00".data, "Data Scientists".data),
  ("research scientist".data, "15-2051.00".data, "Data Scientists".data),
  ("data analyst".data, "15-2041.00".data, "Statisticians".data),
  ("senior data analyst".data, "15-2041.00".data, "Statisticians".data),
  ("sr data analyst".data, "15-2041.00".data, "Statisticians".data),
  ("business intelligence analyst".data, "15-2041.00".data, "Statisticians".data),
  ("bi analyst".data, "15-2041.00".data, "Statisticians".data)
]

def TITLE_CHUNK_06 : List (LC × LC × LC) := [
  ("business intelligence engineer".data, "15-2041.00".data, "Statisticians".data),
  ("bi engineer".data, "15-2041.00".data, "Statisticians".data),
  ("devops engineer".data, "15-1244.00".data, "Network and Computer Systems Administrators".data),
  ("senior devops engineer".data, "15-1244.00".data, "Network and Computer Systems Administrators".data),
  ("sr devops engineer".data, "15-1244.00".data, "Network and Computer Systems Administrators".data),
  ("site reliability engineer".data, "15-1244.00".data, "Network and Computer Systems Administrators".data),
  ("sre".data, "15-1244.00".data, "Network and Computer Systems Administrators".data),
  ("platform engineer".data, "15-1244.00".data, "Network and Computer Systems Administrators".data),
  ("infrastructure engineer".data, "15-1244.00".data, "Network and Computer Systems Administrators".data),
  ("systems administrator".data, "15-1244.00".data, "Network and Computer Systems Administrators".data),
  ("sysadmin".data, "15-1244.00".data, "Network and Computer Systems Administrators".data),
  ("cloud engineer".data, "15-1241.00".data, "Computer Network Architects".data)
]

def TITLE_CHUNK_07 : List (LC × LC × LC) := [
  ("cloud architect".data, "15-1241.00".data, "Computer Network Architects".data),
  ("solutions architect".data, "15-1241.00".data, "Computer Network Architects".data),
  ("enterprise architect".data, "15-1241.00".data, "Computer Network Architects".data),
  ("network engineer".data, "15-1241.00".data, "Computer Network Architects".data),
  ("network administrator".data, "15-1244.00".data, "Network and Computer Systems Administrators".data),
  ("cybersecurity analyst".data, "15-1212.00".data, "Information Security Analysts".data),
  ("cybersecurity engineer".data, "15-1212.00".data, "Information Security Analysts".data),
  ("security analyst".data, "15-1212.00".data, "Information Security Analysts".data),
  ("information security analyst".data, "15-1212.00".data, "Information Security Analysts".data),
  ("penetration tester".data, "15-1212.00".data, "Information Security Analysts".data),
  ("security engineer".data, "15-1212.00".data, "Information Security Analysts".data),
  ("it support specialist".data, "15-1232.00".data, "Computer User Support Specialists".data)
]

def TITLE_CHUNK_08 : List (LC × LC × LC) := [
  ("help desk technician".data, "15-1232.00".data, "Computer User Support Specialists".data),
  ("desktop support".data, "15-1232.00".data, "Computer User Support Specialists".data),
  ("it analyst".data, "15-1299.08".data, "Computer Systems Analysts".data),
  ("systems analyst".data, "15-1299.08".data, "Computer Systems Analysts".data),
  ("business systems analyst".data, "15-1299.08".data, "Computer Systems Analysts".data),
  ("engineering manager".data, "11-9041.00".data, "Architectural and Engineering Managers".data),
  ("senior engineering manager".data, "11-9041.00".data, "Architectural and Engineering Managers".data),
  ("director of engineering".data, "11-9041.00".data, "Architectural and Engineering Managers".data),
  ("vp of engineering".data, "11-9041.00".data, "Architectural and Engineering Managers".data),
  ("vp engineering".data, "11-9041.00".data, "Architectural and Engineering Managers".data),
  ("head of engineering".data, "11-9041.00".data, "Architectural and Engineering Managers".data),
  ("cto".data, "11-1021.00".data, "General and Operations Managers".data)
]

def TITLE_CHUNK_09 : List (LC × LC × LC) := [
  ("chief technology officer".data, "11-1021.00".data, "General and Operations Managers".data),
  ("technical program manager".data, "15-1299.09".data, "Information Technology Project Managers".data),
  ("tpm".data, "15-1299.09".data, "Information Technology Project Managers".data),
  ("it project manager".data, "15-1299.09".data, "Information Technology Project Managers".data),
  ("project manager".data, "11-9199.00".data, "Managers, All Other".data),
  ("senior project manager".data, "11-9199.00".data, "Managers, All Other".data),
  ("program manager".data, "11-9199.00".data, "Managers, All Other".data),
  ("senior program manager".data, "11-9199.00".data, "Managers, All Other".data),
  ("scrum master".data, "15-1299.09".data, "Information Technology Project Managers".data),
  ("agile coach".data, "15-1299.09".data, "Information Technology Project Managers".data),
  ("product manager".data, "11-2021.00".data, "Marketing Managers".data),
  ("senior product manager".data, "11-2021.00".data, "Marketing Managers".data)
]

def TITLE_CHUNK_10 : List (LC × LC × LC) := [
  ("sr product manager".data, "11-2021.00".data, "Marketing Managers".data),
  ("product manager (tech)".data, "15-1299.09".data, "Information Technology Project Managers".data),
  ("director of product".data, "11-2021.00".data, "Marketing Managers".data),
  ("vp of product".data, "11-2021.00".data, "Marketing Managers".data),
  ("vp product".data, "11-2021.00".data, "Marketing Managers".data),
  ("chief product officer".data, "11-2021.00".data, "Marketing Managers".data),
  ("cpo".data, "11-2021.00".data, "Marketing Managers".data),
  ("ux designer".data, "27-1021.00".data, "Commercial and Industrial Designers".data),
  ("ui designer".data, "27-1021.00".data, "Commercial and Industrial Designers".data),
  ("ux/ui designer".data, "27-1021.00".data, "Commercial and Industrial Designers".data),
  ("product designer".data, "27-1021.00".data, "Commercial and Industrial Designers".data),
  ("user experience designer".data, "27-1021.00".data, "Commercial and Industrial Designers".data)
]

def TITLE_CHUNK_11 : List (LC × LC × LC) := [
  ("graphic designer".data, "27-1024.00".data, "Graphic Designers".data),
  ("visual designer".data, "27-1024.00".data, "Graphic Designers".data),
  ("registered nurse".data, "29-1141.00".data, "Registered Nurses".data),
  ("rn".data, "29-1141.00".data, "Registered Nurses".data),
  ("staff nurse".data, "29-1141.00".data, "Registered Nurses".data),
  ("nurse practitioner".data, "29-1171.00".data, "Nurse Practitioners".data),
  ("np".data, "29-1171.00".data, "Nurse Practitioners".data),
  ("physician".data, "29-1215.00".data, "Family Medicine Physicians".data),
  ("doctor".data, "29-1215.00".data, "Family Medicine Physicians".data),
  ("md".data, "29-1215.00".data, "Family Medicine Physicians".data),
  ("physician assistant".data, "29-1071.00".data, "Physician Assistants".data),
  ("pa".data, "29-1071.00".data, "Physician Assistants".data)
]

def TITLE_CHUNK_12 : List (LC × LC × LC) := [
  ("physical therapist".data, "29-1123.00".data, "Physical Therapists".data),
  ("pt".data, "29-1123.00".data, "Physical Therapists".data),
  ("occupational therapist".data, "29-1122.00".data, "Occupational Therapists".data),
  ("ot".data, "29-1122.00".data, "Occupational Therapists".data),
  ("medical assistant".data, "31-9092.00".data, "Medical Assistants".data),
  ("cna".data, "31-1131.00".data, "Nursing Assistants".data),
  ("certified nursing assistant".data, "31-1131.00".data, "Nursing Assistants".data),
  ("pharmacist".data, "29-1051.00".data, "Pharmacists".data),
  ("accountant".data, "13-2011.00".data, "Accountants and Auditors".data),
  ("senior accountant".data, "13-2011.00".data, "Accountants and Auditors".data),
  ("cpa".data, "13-2011.00".data, "Accountants and Auditors".data),
  ("staff accountant".data, "13-2011.00".data, "Accountants and Auditors".data)
]

def TITLE_CHUNK_13 : List (LC × LC × LC) := [
  ("controller".data, "13-2011.00".data, "Accountants and Auditors".data),
  ("financial analyst".data, "13-2051.00".data, "Financial and Investment Analysts".data),
  ("senior financial analyst".data, "13-2051.00".data, "Financial and Investment Analysts".data),
  ("sr financial analyst".data, "13-2051.00".data, "Financial and Investment Analysts".data),
  ("fp&a analyst".data, "13-2051.00".data, "Financial and Investment Analysts".data),
  ("fp&a manager".data, "13-2051.00".data, "Financial and Investment Analysts".data),
  ("investment analyst".data, "13-2051.00".data, "Financial and Investment Analysts".data),
  ("finance manager".data, "13-2051.00".data, "Financial and Investment Analysts".data),
  ("cfo".data, "11-3031.00".data, "Financial Managers".data),
  ("chief financial officer".data, "11-3031.00".data, "Financial Managers".data),
  ("financial manager".data, "11-3031.00".data, "Financial Managers".data),
  ("treasury analyst".data, "13-2051.00".data, "Financial and Investment Analysts".data)
]

def TITLE_CHUNK_14 : List (LC × LC × LC) := [
  ("business analyst".data, "13-1111.00".data, "Management Analysts".data),
  ("senior business analyst".data, "13-1111.00".data, "Management Analysts".data),
  ("sr business analyst".data, "13-1111.00".data, "Management Analysts".data),
  ("management consultant".data, "13-1111.00".data, "Management Analysts".data),
  ("operations manager".data, "11-1021.00".data, "General and Operations Managers".data),
  ("operations analyst".data, "13-1111.00".data, "Management Analysts".data),
  ("strategy analyst".data, "13-1111.00".data, "Management Analysts".data),
  ("business operations manager".data, "11-1021.00".data, "General and Operations Managers".data),
  ("general manager".data, "11-1021.00".data, "General and Operations Managers".data),
  ("marketing manager".data, "11-2021.00".data, "Marketing Managers".data),
  ("senior marketing manager".data, "11-2021.00".data, "Marketing Managers".data),
  ("marketing director".data, "11-2021.00".data, "Marketing Managers".data)
]

def TITLE_CHUNK_15 : List (LC × LC × LC) := [
  ("marketing analyst".data, "13-1161.00".data, "Market Research Analysts".data),
  ("market research analyst".data, "13-1161.00".data, "Market Research Analysts".data),
  ("digital marketing manager".data, "11-2021.00".data, "Marketing Managers".data),
  ("content manager".data, "11-2021.00".data, "Marketing Managers".data),
  ("seo specialist".data, "13-1161.00".data, "Market Research Analysts".data),
  ("cmo".data, "11-2021.00".data, "Marketing Managers".data),
  ("chief marketing officer".data, "11-2021.00".data, "Marketing Managers".data),
  ("sales representative".data, "41-4012.00".data, "Sales Representatives".data),
  ("sales rep".data, "41-4012.00".data, "Sales Representatives".data),
  ("account executive".data, "41-4012.00".data, "Sales Representatives".data),
  ("ae".data, "41-4012.00".data, "Sales Representatives".data),
  ("account manager".data, "41-4012.00".data, "Sales Representatives".data)
]

def TITLE_CHUNK_16 : List (LC × LC × LC) := [
  ("inside sales".data, "41-4012.00".data, "Sales Representatives".data),
  ("outside sales".data, "41-4012.00".data, "Sales Representatives".data),
  ("sales manager".data, "41-1012.00".data, "Sales Managers".data),
  ("senior sales manager".data, "41-1012.00".data, "Sales Managers".data),
  ("vp of sales".data, "41-1012.00".data, "Sales Managers".data),
  ("vp sales".data, "41-1012.00".data, "Sales Managers".data),
  ("director of sales".data, "41-1012.00".data, "Sales Managers".data),
  ("business development manager".data, "41-1012.00".data, "Sales Managers".data),
  ("bdr".data, "41-4012.00".data, "Sales Representatives".data),
  ("sdr".data, "41-4012.00".data, "Sales Representatives".data),
  ("human resources".data, "13-1071.00".data, "Human Resources Specialists".data),
  ("hr".data, "13-1071.00".data, "Human Resources Specialists".data)
]

def TITLE_CHUNK_17 : List (LC × LC × LC) := [
  ("human resources specialist".data, "13-1071.00".data, "Human Resources Specialists".data),
  ("hr specialist".data, "13-1071.00".data, "Human Resources Specialists".data),
  ("hr generalist".data, "13-1071.00".data, "Human Resources Specialists".data),
  ("human resources generalist".data, "13-1071.00".data, "Human Resources Specialists".data),
  ("human resources manager".data, "11-3121.00".data, "Human Resources Managers".data),
  ("hr manager".data, "11-3121.00".data, "Human Resources Managers".data),
  ("senior hr manager".data, "11-3121.00".data, "Human Resources Managers".data),
  ("director of human resources".data, "11-3121.00".data, "Human Resources Managers".data),
  ("hr director".data, "11-3121.00".data, "Human Resources Managers".data),
  ("vp of human resources".data, "11-3121.00".data, "Human Resources Managers".data),
  ("vp hr".data, "11-3121.00".data, "Human Resources Managers".data),
  ("chief human resources officer".data, "11-3121.00".data, "Human Resources Managers".data)
]

def TITLE_CHUNK_18 : List (LC × LC × LC) := [
  ("chro".data, "11-3121.00".data, "Human Resources Managers".data),
  ("hrbp".data, "13-1071.00".data, "Human Resources Specialists".data),
  ("hr business partner".data, "13-1071.00".data, "Human Resources Specialists".data),
  ("compensation analyst".data, "13-1141.00".data, "Compensation, Benefits, and Job Analysis Specialists".data),
  ("compensation manager".data, "11-3111.00".data, "Compensation and Benefits Managers".data),
  ("benefits specialist".data, "13-1141.00".data, "Compensation, Benefits, and Job Analysis Specialists".data),
  ("benefits manager".data, "11-3111.00".data, "Compensation and Benefits Managers".data),
  ("training specialist".data, "13-1151.00".data, "Training and Development Specialists".data),
  ("learning and development".data, "13-1151.00".data, "Training and Development Specialists".data),
  ("talent management".data, "13-1071.00".data, "Human Resources Specialists".data),
  ("recruiter".data, "13-1071.00".data, "Human Resources Specialists".data),
  ("senior recruiter".data, "13-1071.00".data, "Human Resources Specialists".data)
]

def TITLE_CHUNK_19 : List (LC × LC × LC) := [
  ("technical recruiter".data, "13-1071.00".data, "Human Resources Specialists".data),
  ("talent acquisition".data, "13-1071.00".data, "Human Resources Specialists".data),
  ("talent acquisition specialist".data, "13-1071.00".data, "Human Resources Specialists".data),
  ("talent acquisition manager".data, "11-3121.00".data, "Human Resources Managers".data),
  ("sourcer".data, "13-1071.00".data, "Human Resources Specialists".data),
  ("staffing specialist".data, "13-1071.00".data, "Human Resources Specialists".data),
  ("staffing coordinator".data, "13-1071.00".data, "Human Resources Specialists".data),
  ("staffing manager".data, "11-3121.00".data, "Human Resources Managers".data),
  ("attorney".data, "23-1011.00".data, "Lawyers".data),
  ("lawyer".data, "23-1011.00".data, "Lawyers".data),
  ("associate attorney".data, "23-1011.00".data, "Lawyers".data),
  ("paralegal".data, "23-2011.00".data, "Paralegals and Legal Assistants".data)
]

def TITLE_CHUNK_20 : List (LC × LC × LC) := [
  ("legal assistant".data, "23-2011.00".data, "Paralegals and Legal Assistants".data),
  ("compliance analyst".data, "13-1041.00".data, "Compliance Officers".data),
  ("compliance officer".data, "13-1041.00".data, "Compliance Officers".data),
  ("compliance manager".data, "13-1041.00".data, "Compliance Officers".data),
  ("teacher".data, "25-2031.00".data, "Secondary School Teachers".data),
  ("high school teacher".data, "25-2031.00".data, "Secondary School Teachers".data),
  ("elementary teacher".data, "25-2021.00".data, "Elementary School Teachers".data),
  ("professor".data, "25-1099.00".data, "Postsecondary Teachers, All Other".data),
  ("adjunct professor".data, "25-1099.00".data, "Postsecondary Teachers, All Other".data),
  ("instructional designer".data, "25-9031.00".data, "Instructional Coordinators".data),
  ("curriculum developer".data, "25-9031.00".data, "Instructional Coordinators".data),
  ("mechanical engineer".data, "17-2141.00".data, "Mechanical Engineers".data)
]

def TITLE_CHUNK_21 : List (LC × LC × LC) := [
  ("senior mechanical engineer".data, "17-2141.00".data, "Mechanical Engineers".data),
  ("electrical engineer".data, "17-2071.00".data, "Electrical Engineers".data),
  ("senior electrical engineer".data, "17-2071.00".data, "Electrical Engineers".data),
  ("civil engineer".data, "17-2051.00".data, "Civil Engineers".data),
  ("structural engineer".data, "17-2051.00".data, "Civil Engineers".data),
  ("chemical engineer".data, "17-2041.00".data, "Chemical Engineers".data),
  ("aerospace engineer".data, "17-2011.00".data, "Aerospace Engineers".data),
  ("manufacturing engineer".data, "17-2112.00".data, "Industrial Engineers".data),
  ("industrial engineer".data, "17-2112.00".data, "Industrial Engineers".data),
  ("quality engineer".data, "17-2112.00".data, "Industrial Engineers".data),
  ("process engineer".data, "17-2112.00".data, "Industrial Engineers".data),
  ("plant engineer".data, "17-2112.00".data, "Industrial Engineers".data)
]

def TITLE_CHUNK_22 : List (LC × LC × LC) := [
  ("machine operator".data, "51-9199.00".data, "Production Workers, All Other".data),
  ("machine operator i".data, "51-9199.00".data, "Production Workers, All Other".data),
  ("machine operator ii".data, "51-9199.00".data, "Production Workers, All Other".data),
  ("production operator".data, "51-9199.00".data, "Production Workers, All Other".data),
  ("manufacturing operator".data, "51-9199.00".data, "Production Workers, All Other".data),
  ("line operator".data, "51-9199.00".data, "Production Workers, All Other".data),
  ("production worker".data, "51-9199.00".data, "Production Workers, All Other".data),
  ("assembly operator".data, "51-2099.00".data, "Assemblers and Fabricators, All Other".data),
  ("assembler".data, "51-2099.00".data, "Assemblers and Fabricators, All Other".data),
  ("production assembler".data, "51-2099.00".data, "Assemblers and Fabricators, All Other".data),
  ("cnc operator".data, "51-4011.00".data, "CNC Machine Tool Operators, Metal and Plastic".data),
  ("cnc machine operator".data, "51-4011.00".data, "CNC Machine Tool Operators, Metal and Plastic".data)
]

def TITLE_CHUNK_23 : List (LC × LC × LC) := [
  ("cnc machinist".data, "51-4011.00".data, "CNC Machine Tool Operators, Metal and Plastic".data),
  ("machinist".data, "51-4041.00".data, "Machinists".data),
  ("tool and die maker".data, "51-4111.00".data, "Tool and Die Makers".data),
  ("welder".data, "51-4121.00".data, "Welders, Cutters, Solderers, and Brazers".data),
  ("welding technician".data, "51-4121.00".data, "Welders, Cutters, Solderers, and Brazers".data),
  ("quality inspector".data, "51-9061.00".data, "Inspectors, Testers, Sorters, Samplers, and Weighers".data),
  ("quality control inspector".data, "51-9061.00".data, "Inspectors, Testers, Sorters, Samplers, and Weighers".data),
  ("qc inspector".data, "51-9061.00".data, "Inspectors, Testers, Sorters, Samplers, and Weighers".data),
  ("production supervisor".data, "51-1011.00".data, "First-Line Supervisors of Production and Operating Workers".data),
  ("manufacturing supervisor".data, "51-1011.00".data, "First-Line Supervisors of Production and Operating Workers".data),
  ("shift supervisor".data, "51-1011.00".data, "First-Line Supervisors of Production and Operating Workers".data),
  ("plant manager".data, "11-1021.00".data, "General and Operations Managers".data)
]

def TITLE_CHUNK_24 : List (LC × LC × LC) := [
  ("production manager".data, "11-9199.00".data, "Managers, All Other".data),
  ("warehouse worker".data, "53-7065.00".data, "Stockers and Order Fillers".data),
  ("warehouse associate".data, "53-7065.00".data, "Stockers and Order Fillers".data),
  ("warehouse operator".data, "53-7065.00".data, "Stockers and Order Fillers".data),
  ("order picker".data, "53-7065.00".data, "Stockers and Order Fillers".data),
  ("picker packer".data, "53-7065.00".data, "Stockers and Order Fillers".data),
  ("stocker".data, "53-7065.00".data, "Stockers and Order Fillers".data),
  ("inventory specialist".data, "53-7065.00".data, "Stockers and Order Fillers".data),
  ("forklift operator".data, "53-7051.00".data, "Industrial Truck and Tractor Operators".data),
  ("forklift driver".data, "53-7051.00".data, "Industrial Truck and Tractor Operators".data),
  ("material handler".data, "53-7062.00".data, "Laborers and Freight, Stock, and Material Movers, Hand".data),
  ("shipping receiving".data, "53-7065.00".data, "Stockers and Order Fillers".data)
]

def TITLE_CHUNK_25 : List (LC × LC × LC) := [
  ("shipping coordinator".data, "43-5071.00".data, "Shipping, Receiving, and Inventory Clerks".data),
  ("logistics coordinator".data, "43-5071.00".data, "Shipping, Receiving, and Inventory Clerks".data),
  ("supply chain analyst".data, "13-1081.00".data, "Logisticians".data),
  ("supply chain manager".data, "11-3071.00".data, "Transportation, Storage, and Distribution Managers".data),
  ("logistics manager".data, "11-3071.00".data, "Transportation, Storage, and Distribution Managers".data),
  ("truck driver".data, "53-3032.00".data, "Heavy and Tractor-Trailer Truck Drivers".data),
  ("cdl driver".data, "53-3032.00".data, "Heavy and Tractor-Trailer Truck Drivers".data),
  ("semi driver".data, "53-3032.00".data, "Heavy and Tractor-Trailer Truck Drivers".data),
  ("delivery driver".data, "53-3033.00".data, "Light Truck Drivers".data),
  ("driver".data, "53-3033.00".data, "Light Truck Drivers".data),
  ("bus driver".data, "53-3052.00".data, "Bus Drivers, School".data),
  ("dispatcher".data, "43-5032.00".data, "Dispatchers, Except Police, Fire, and Ambulance".data)
]

def TITLE_CHUNK_26 : List (LC × LC × LC) := [
  ("electrician".data, "47-2111.00".data, "Electricians".data),
  ("journeyman electrician".data, "47-2111.00".data, "Electricians".data),
  ("master electrician".data, "47-2111.00".data, "Electricians".data),
  ("plumber".data, "47-2152.00".data, "Plumbers, Pipefitters, and Steamfitters".data),
  ("pipefitter".data, "47-2152.00".data, "Plumbers, Pipefitters, and Steamfitters".data),
  ("carpenter".data, "47-2031.00".data, "Carpenters".data),
  ("construction worker".data, "47-2061.00".data, "Construction Laborers".data),
  ("laborer".data, "47-2061.00".data, "Construction Laborers".data),
  ("hvac technician".data, "49-9021.00".data, "Heating, Air Conditioning, and Refrigeration Mechanics and Installers".data),
  ("hvac tech".data, "49-9021.00".data, "Heating, Air Conditioning, and Refrigeration Mechanics and Installers".data),
  ("hvac".data, "49-9021.00".data, "Heating, Air Conditioning, and Refrigeration Mechanics and Installers".data),
  ("maintenance technician".data, "49-9071.00".data, "Maintenance and Repair Workers, General".data)
]

def TITLE_CHUNK_27 : List (LC × LC × LC) := [
  ("maintenance mechanic".data, "49-9071.00".data, "Maintenance and Repair Workers, General".data),
  ("facilities technician".data, "49-9071.00".data, "Maintenance and Repair Workers, General".data),
  ("mechanic".data, "49-3023.00".data, "Automotive Service Technicians and Mechanics".data),
  ("auto mechanic".data, "49-3023.00".data, "Automotive Service Technicians and Mechanics".data),
  ("automotive technician".data, "49-3023.00".data, "Automotive Service Technicians and Mechanics".data),
  ("diesel mechanic".data, "49-3031.00".data, "Bus and Truck Mechanics and Diesel Engine Specialists".data),
  ("equipment operator".data, "47-2073.00".data, "Operating Engineers and Other Construction Equipment Operators".data),
  ("heavy equipment operator".data, "47-2073.00".data, "Operating Engineers and Other Construction Equipment Operators".data),
  ("customer service representative".data, "43-4051.00".data, "Customer Service Representatives".data),
  ("customer service rep".data, "43-4051.00".data, "Customer Service Representatives".data),
  ("csr".data, "43-4051.00".data, "Customer Service Representatives".data),
  ("call center agent".data, "43-4051.00".data, "Customer Service Representatives".data)
]

def TITLE_CHUNK_28 : List (LC × LC × LC) := [
  ("customer support specialist".data, "43-4051.00".data, "Customer Service Representatives".data),
  ("retail associate".data, "41-2031.00".data, "Retail Salespersons".data),
  ("retail sales associate".data, "41-2031.00".data, "Retail Salespersons".data),
  ("cashier".data, "41-2011.00".data, "Cashiers".data),
  ("store manager".data, "41-1011.00".data, "First-Line Supervisors of Retail Sales Workers".data),
  ("administrative assistant".data, "43-6014.00".data, "Secretaries and Administrative Assistants".data),
  ("admin assistant".data, "43-6014.00".data, "Secretaries and Administrative Assistants".data),
  ("executive assistant".data, "43-6011.00".data, "Executive Secretaries and Executive Administrative Assistants".data),
  ("office manager".data, "43-1011.00".data, "First-Line Supervisors of Office and Administrative Support Workers".data),
  ("receptionist".data, "43-4171.00".data, "Receptionists and Information Clerks".data),
  ("data entry".data, "43-9021.00".data, "Data Entry Keyers".data),
  ("data entry clerk".data, "43-9021.00".data, "Data Entry Keyers".data)
]

def TITLE_CHUNK_29 : List (LC × LC × LC) := [
  ("bookkeeper".data, "43-3031.00".data, "Bookkeeping, Accounting, and Auditing Clerks".data),
  ("payroll specialist".data, "43-3051.00".data, "Payroll and Timekeeping Clerks".data),
  ("payroll manager".data, "11-3111.00".data, "Compensation and Benefits Managers".data)
]

/-- Curated title → (SOC code, O*NET title) map (`src/data_sources/onet.py`,
`LOCAL_TITLE_MAP`, lines 23–415): the chunks above, in order. -/
def LOCAL_TITLE_MAP : List (LC × LC × LC) :=
  TITLE_CHUNK_01 ++ TITLE_CHUNK_02 ++ TITLE_CHUNK_03 ++ TITLE_CHUNK_04 ++ TITLE_CHUNK_05 ++ TITLE_CHUNK_06 ++ TITLE_CHUNK_07 ++ TITLE_CHUNK_08 ++ TITLE_CHUNK_09 ++ TITLE_CHUNK_10 ++ TITLE_CHUNK_11 ++ TITLE_CHUNK_12 ++ TITLE_CHUNK_13 ++ TITLE_CHUNK_14 ++ TITLE_CHUNK_15 ++ TITLE_CHUNK_16 ++ TITLE_CHUNK_17 ++ TITLE_CHUNK_18 ++ TITLE_CHUNK_19 ++ TITLE_CHUNK_20 ++ TITLE_CHUNK_21 ++ TITLE_CHUNK_22 ++ TITLE_CHUNK_23 ++ TITLE_CHUNK_24 ++ TITLE_CHUNK_25 ++ TITLE_CHUNK_26 ++ TITLE_CHUNK_27 ++ TITLE_CHUNK_28 ++ TITLE_CHUNK_29

/-- State abbreviation → FIPS code (`src/utils/geo.py`, `STATE_FIPS`, lines 29–41). -/
def STATE_FIPS : List (LC × LC) := [
  ("AL".data, "01".data),
  ("AK".data, "02".data),
  ("AZ".data, "04".data),
  ("AR".data, "05".data),
  ("CA".data, "06".data),
  ("CO".data, "08".data),
  ("CT".data, "09".data),
  ("DE".data, "10".data),
  ("FL".data, "12".data),
  ("GA".data, "13".data),
  ("HI".data, "15".data),
  ("ID".data, "16".data),
  ("IL".data, "17".data),
  ("IN".data, "18".data),
  ("IA".data, "19".data),
  ("KS".data, "20".data),
  ("KY".data, "21".data),
  ("LA".data, "22".data),
  ("ME".data, "23".data),
  ("MD".data, "24".data),
  ("MA".data, "25".data),
  ("MI".data, "26".data),
  ("MN".data, "27".data),
  ("MS".data, "28".data),
  ("MO".data, "29".data),
  ("MT".data, "30".data),
  ("NE".data, "31".data),
  ("NV".data, "32".data),
  ("NH".data, "33".data),
  ("NJ".data, "34".data),
  ("NM".data, "35".data),
  ("NY".data, "36".data),
  ("NC".data, "37".data),
  ("ND".data, "38".data),
  ("OH".data, "39".data),
  ("OK".data, "40".data),
  ("OR".data, "41".data),
  ("PA".data, "42".data),
  ("RI".data, "44".data),
  ("SC".data, "45".data),
  ("SD".data, "46".data),
  ("TN".data, "47".data),
  ("TX".data, "48".data),
  ("UT".data, "49".data),
  ("VT".data, "50".data),
  ("VA".data, "51".data),
  ("WA".data, "53".data),
  ("WV".data, "54".data),
  ("WI".data, "55".data),
  ("WY".data, "56".data),
  ("DC".data, "11".data)
]

/-- FIPS code → state display name (`src/utils/geo.py`, `STATE_NAMES`, lines 44–57). -/
def STATE_NAMES : List (LC × LC) := [
  ("01".data, "Alabama".data),
  ("02".data, "Alaska".data),
  ("04".data, "Arizona".data),
  ("05".data, "Arkansas".data),
  ("06".data, "California".data),
  ("08".data, "Colorado".data),
  ("09".data, "Connecticut".data),
  ("10".data, "Delaware".data),
  ("11".data, "DC".data),
  ("12".data, "Florida".data),
  ("13".data, "Georgia".data),
  ("15".data, "Hawaii".data),
  ("16".data, "Idaho".data),
  ("17".data, "Illinois".data),
  ("18".data, "Indiana".data),
  ("19".data, "Iowa".data),
  ("20".data, "Kansas".data),
  ("21".data, "Kentucky".data),
  ("22".data, "Louisiana".data),
  ("23".data, "Maine".data),
  ("24".data, "Maryland".data),
  ("25".data, "Massachusetts".data),
  ("26".data, "Michigan".data),
  ("27".data, "Minnesota".data),
  ("28".data, "Mississippi".data),
  ("29".data, "Missouri".data),
  ("30".data, "Montana".data),
  ("31".data, "Nebraska".data),
  ("32".data, "Nevada".data),
  ("33".data, "New Hampshire".data),
  ("34".data, "New Jersey".data),
  ("35".data, "New Mexico".data),
  ("36".data, "New York".data),
  ("37".data, "North Carolina".data),
  ("38".data, "North Dakota".data),
  ("39".data, "Ohio".data),
  ("40".data, "Oklahoma".data),
  ("41".data, "Oregon".data),
  ("42".data, "Pennsylvania".data),
  ("44".data, "Rhode Island".data),
  ("45".data, "South Carolina".data),
  ("46".data, "South Dakota".data),
  ("47".data, "Tennessee".data),
  ("48".data, "Texas".data),
  ("49".data, "Utah".data),
  ("50".data, "Vermont".data),
  ("51".data, "Virginia".data),
  ("53".data, "Washington".data),
  ("54".data, "West Virginia".data),
  ("55".data, "Wisconsin".data),
  ("56".data, "Wyoming".data)
]

/-- CBSA code → (BLS area code, metro name) (`src/utils/geo.py`, `CBSA_TO_BLS`,
lines 60–237), in literal order, duplicate keys included (lookup takes the last). -/
def CBSA_TO_BLS : List (LC × LC × LC) := [
  ("35620".data, "M3562000".data, "New York-Newark-Jersey City, NY-NJ-PA".data),
  ("31080".data, "M3108000".data, "Los Angeles-Long Beach-Anaheim, CA".data),
  ("16980".data, "M1698000".data, "Chicago-Naperville-Elgin, IL-IN-WI".data),
  ("19100".data, "M1910000".data, "Dallas-Fort Worth-Arlington, TX".data),
  ("26420".data, "M2642000".data, "Houston-The Woodlands-Sugar Land, TX".data),
  ("33100".data, "M3310000".data, "Miami-Fort Lauderdale-West Palm Beach, FL".data),
  ("47900".data, "M4790000".data, "Washington-Arlington-Alexandria, DC-VA-MD-WV".data),
  ("37980".data, "M3798000".data, "Philadelphia-Camden-Wilmington, PA-NJ-DE-MD".data),
  ("12060".data, "M1206000".data, "Atlanta-Sandy Springs-Alpharetta, GA".data),
  ("14460".data, "M1446000".data, "Boston-Cambridge-Newton, MA-NH".data),
  ("33460".data, "M3346000".data, "Minneapolis-St. Paul-Bloomington, MN-WI".data),
  ("41860".data, "M4186000".data, "San Francisco-Oakland-Berkeley, CA".data),
  ("41740".data, "M4174000".data, "San Diego-Chula Vista-Carlsbad, CA".data),
  ("45300".data, "M4530000".data, "Tampa-St. Petersburg-Clearwater, FL".data),
  ("19820".data, "M1982000".data, "Detroit-Warren-Dearborn, MI".data),
  ("36740".data, "M3674000".data, "Orlando-Kissimmee-Sanford, FL".data),
  ("12420".data, "M1242000".data, "Austin-Round Rock-Georgetown, TX".data),
  ("38060".data, "M3806000".data, "Phoenix-Mesa-Chandler, AZ".data),
  ("41700".data, "M4170000".data, "San Antonio-New Braunfels, TX".data),
  ("29820".data, "M2982000".data, "Las Vegas-Henderson-Paradise, NV".data),
  ("40140".data, "M4014000".data, "Riverside-San Bernardino-Ontario, CA".data),
  ("17460".data, "M1746000".data, "Cincinnati, OH-KY-IN".data),
  ("28140".data, "M2814000".data, "Kansas City, MO-KS".data),
  ("39300".data, "M3930000".data, "Portland-Vancouver-Hillsboro, OR-WA".data),
  ("41180".data, "M4118000".data, "St. Louis, MO-IL".data),
  ("32580".data, "M3258000".data, "McAllen-Edinburg-Mission, TX".data),
  ("12580".data, "M1258000".data, "Baltimore-Columbia-Towson, MD".data),
  ("36420".data, "M3642000".data, "Oklahoma City, OK".data),
  ("27260".data, "M2726000".data, "Jacksonville, FL".data),
  ("46140".data, "M4614000".data, "Tucson, AZ".data),
  ("42660".data, "M4266000".data, "Seattle-Tacoma-Bellevue, WA".data),
  ("17140".data, "M1714000".data, "Cleveland-Elyria, OH".data),
  ("18140".data, "M1814000".data, "Columbus, OH".data),
  ("19740".data, "M1974000".data, "Denver-Aurora-Lakewood, CO".data),
  ("30460".data, "M3046000".data, "Louisville/Jefferson County, KY-IN".data),
  ("32820".data, "M3282000".data, "Memphis, TN-MS-AR".data),
  ("33260".data, "M3326000".data, "Milwaukee-Waukesha, WI".data),
  ("26900".data, "M2690000".data, "Indianapolis-Carmel-Anderson, IN".data),
  ("25540".data, "M2554000".data, "Hartford-East Hartford-Middletown, CT".data),
  ("31460".data, "M3146000".data, "Madison, WI".data),
  ("14260".data, "M1426000".data, "Boise City, ID".data),
  ("34980".data, "M3498000".data, "Nashville-Davidson-Murfreesboro-Franklin, TN".data),
  ("35380".data, "M3538000".data, "New Orleans-Metairie, LA".data),
  ("40900".data, "M4090000".data, "Sacramento-Roseville-Folsom, CA".data),
  ("41940".data, "M4194000".data, "San Jose-Sunnyvale-Santa Clara, CA".data),
  ("24340".data, "M2434000".data, "Grand Rapids-Kentwood, MI".data),
  ("10740".data, "M1074000".data, "Albuquerque, NM".data),
  ("16740".data, "M1674000".data, "Charlotte-Concord-Gastonia, NC-SC".data),
  ("38900".data, "M3890000".data, "Raleigh-Cary, NC".data),
  ("11700".data, "M1170000".data, "Asheville, NC".data),
  ("20500".data, "M2050000".data, "Durham-Chapel Hill, NC".data),
  ("24140".data, "M2414000".data, "Greensboro-High Point, NC".data),
  ("49180".data, "M4918000".data, "Winston-Salem, NC".data),
  ("48900".data, "M4890000".data, "Wilmington, NC".data),
  ("22180".data, "M2218000".data, "Fayetteville, NC".data),
  ("25860".data, "M2586000".data, "Hickory-Lenoir-Morganton, NC".data),
  ("15500".data, "M1550000".data, "Burlington, NC".data),
  ("40580".data, "M4058000".data, "Rocky Mount, NC".data),
  ("39580".data, "M3958000".data, "Roanoke Rapids, NC".data),
  ("24660".data, "M2466000".data, "Greenville-Anderson, SC".data),
  ("16580".data, "M1658000".data, "Charleston-North Charleston, SC".data),
  ("47260".data, "M4726000".data, "Virginia Beach-Norfolk-Newport News, VA-NC".data),
  ("40060".data, "M4006000".data, "Richmond, VA".data),
  ("13980".data, "M1398000".data, "Charlottesville, VA".data),
  ("44420".data, "M4442000".data, "Roanoke, VA".data),
  ("16860".data, "M1686000".data, "Chattanooga, TN-GA".data),
  ("27740".data, "M2774000".data, "Knoxville, TN".data),
  ("34100".data, "M3410000".data, "Murfreesboro, TN".data),
  ("26300".data, "M2630000".data, "Huntsville, AL".data),
  ("13820".data, "M1382000".data, "Birmingham-Hoover, AL".data),
  ("33660".data, "M3366000".data, "Mobile, AL".data),
  ("37860".data, "M3786000".data, "Pensacola-Ferry Pass-Brent, FL".data),
  ("18880".data, "M1888000".data, "Daytona Beach, FL".data),
  ("42680".data, "M4268000".data, "Sebastian-Vero Beach, FL".data),
  ("38940".data, "M3894000".data, "Cape Coral-Fort Myers, FL".data),
  ("35300".data, "M3530000".data, "New Haven-Milford, CT".data),
  ("35980".data, "M3598000".data, "Norwich-New London, CT".data),
  ("39300".data, "M3930000".data, "Providence-Warwick, RI-MA".data),
  ("15764".data, "M1576400".data, "Albany-Schenectady-Troy, NY".data),
  ("45060".data, "M4506000".data, "Syracuse, NY".data),
  ("40380".data, "M4038000".data, "Rochester, NY".data),
  ("15380".data, "M1538000".data, "Buffalo-Cheektowaga, NY".data),
  ("10580".data, "M1058000".data, "Albany, NY".data),
  ("35614".data, "M3561400".data, "Nassau County-Suffolk County, NY".data),
  ("35084".data, "M3508400".data, "Newark, NJ-PA".data),
  ("19380".data, "M1938000".data, "Dayton-Kettering, OH".data),
  ("18020".data, "M1802000".data, "Akron, OH".data),
  ("17460".data, "M1746000".data, "Cincinnati, OH-KY-IN".data),
  ("45780".data, "M4578000".data, "Toledo, OH".data),
  ("16620".data, "M1662000".data, "Champaign-Urbana, IL".data),
  ("44100".data, "M4410000".data, "Rockford, IL".data),
  ("16580".data, "M1658000".data, "Springfield, IL".data),
  ("28100".data, "M2810000".data, "Kalamazoo-Portage, MI".data),
  ("26090".data, "M2609000".data, "Holland, MI".data),
  ("22420".data, "M2242000".data, "Flint, MI".data),
  ("20994".data, "M2099400".data, "Eau Claire, WI".data),
  ("29404".data, "M2940400".data, "La Crosse-Onalaska, WI-MN".data),
  ("24580".data, "M2458000".data, "Green Bay, WI".data),
  ("31900".data, "M3190000".data, "Lincoln, NE".data),
  ("36540".data, "M3654000".data, "Omaha-Council Bluffs, NE-IA".data),
  ("19780".data, "M1978000".data, "Des Moines-West Des Moines, IA".data),
  ("26980".data, "M2698000".data, "Iowa City, IA".data),
  ("33460".data, "M3346000".data, "Minneapolis-St. Paul-Bloomington, MN-WI".data),
  ("20260".data, "M2026000".data, "Duluth, MN-WI".data),
  ("22060".data, "M2206000".data, "Fargo, ND-MN".data),
  ("13140".data, "M1314000".data, "Bismarck, ND".data),
  ("43780".data, "M4378000".data, "Sioux Falls, SD".data),
  ("39380".data, "M3938000".data, "Rapid City, SD".data),
  ("27060".data, "M2706000".data, "Jefferson City, MO".data),
  ("41140".data, "M4114000".data, "Springfield, MO".data),
  ("27900".data, "M2790000".data, "Joplin, MO".data),
  ("28620".data, "M2862000".data, "Lawrence, KS".data),
  ("28100".data, "M2810000".data, "Topeka, KS".data),
  ("48620".data, "M4862000".data, "Wichita, KS".data),
  ("19740".data, "M1974000".data, "Denver-Aurora-Lakewood, CO".data),
  ("14500".data, "M1450000".data, "Boulder, CO".data),
  ("24300".data, "M2430000".data, "Fort Collins, CO".data),
  ("22660".data, "M2266000".data, "Colorado Springs, CO".data),
  ("42340".data, "M4234000".data, "Santa Fe, NM".data),
  ("29740".data, "M2974000".data, "Las Cruces, NM".data),
  ("41620".data, "M4162000".data, "Salt Lake City, UT".data),
  ("36260".data, "M3626000".data, "Ogden-Clearfield, UT".data),
  ("39340".data, "M3934000".data, "Provo-Orem, UT".data),
  ("39900".data, "M3990000".data, "St. George, UT".data),
  ("39220".data, "M3922000".data, "Reno, NV".data),
  ("29460".data, "M2946000".data, "Carson City, NV".data),
  ("30860".data, "M3086000".data, "Lubbock, TX".data),
  ("41660".data, "M4166000".data, "San Angelo, TX".data),
  ("19124".data, "M1912400".data, "Midland, TX".data),
  ("36220".data, "M3622000".data, "Odessa, TX".data),
  ("22100".data, "M2210000".data, "El Paso, TX".data),
  ("37100".data, "M3710000".data, "Corpus Christi, TX".data),
  ("26420".data, "M2642000".data, "Beaumont-Port Arthur, TX".data),
  ("13060".data, "M1306000".data, "Abilene, TX".data),
  ("18580".data, "M1858000".data, "College Station-Bryan, TX".data),
  ("26620".data, "M2662000".data, "Killeen-Temple, TX".data),
  ("45500".data, "M4550000".data, "Texarkana, TX-AR".data),
  ("13460".data, "M1346000".data, "Bellingham, WA".data),
  ("36500".data, "M3650000".data, "Olympia-Lacey-Tumwater, WA".data),
  ("45104".data, "M4510400".data, "Tacoma-Lakewood, WA".data),
  ("28420".data, "M2842000".data, "Kennewick-Richland, WA".data),
  ("24260".data, "M2426000".data, "Grants Pass, OR".data),
  ("18700".data, "M1870000".data, "Corvallis, OR".data),
  ("21660".data, "M2166000".data, "Eugene-Springfield, OR".data),
  ("38900".data, "M3890000".data, "Salem, OR".data),
  ("13460".data, "M1346000".data, "Bend, OR".data),
  ("25420".data, "M2542000".data, "Medford, OR".data),
  ("31460".data, "M3146000".data, "Fresno, CA".data),
  ("25260".data, "M2526000".data, "Bakersfield, CA".data),
  ("33700".data, "M3370000".data, "Modesto, CA".data),
  ("44700".data, "M4470000".data, "Stockton, CA".data),
  ("46700".data, "M4670000".data, "Visalia, CA".data),
  ("42220".data, "M4222000".data, "Santa Barbara-Santa Maria-Goleta, CA".data),
  ("37100".data, "M3710000".data, "Oxnard-Thousand Oaks-Ventura, CA".data),
  ("40900".data, "M4090000".data, "Salinas, CA".data),
  ("41500".data, "M4150000".data, "Santa Cruz-Watsonville, CA".data),
  ("42100".data, "M4210000".data, "Santa Rosa-Petaluma, CA".data),
  ("34900".data, "M3490000".data, "Napa, CA".data),
  ("32900".data, "M3290000".data, "Merced, CA".data),
  ("23420".data, "M2342000".data, "El Centro, CA".data),
  ("40140".data, "M4014000".data, "San Bernardino, CA".data)
]

/-- Map (city, state) → CBSA code (`src/utils/geo.py`, `CITY_TO_CBSA`, lines 240–430). -/
def CITY_TO_CBSA : List ((LC × LC) × LC) := [
  (("new york".data, "ny".data), "35620".data),
  (("los angeles".data, "ca".data), "31080".data),
  (("chicago".data, "il".data), "16980".data),
  (("dallas".data, "tx".data), "19100".data),
  (("houston".data, "tx".data), "26420".data),
  (("miami".data, "fl".data), "33100".data),
  (("washington".data, "dc".data), "47900".data),
  (("philadelphia".data, "pa".data), "37980".data),
  (("atlanta".data, "ga".data), "12060".data),
  (("boston".data, "ma".data), "14460".data),
  (("minneapolis".data, "mn".data), "33460".data),
  (("san francisco".data, "ca".data), "41860".data),
  (("san diego".data, "ca".data), "41740".data),
  (("tampa".data, "fl".data), "45300".data),
  (("detroit".data, "mi".data), "19820".data),
  (("orlando".data, "fl".data), "36740".data),
  (("austin".data, "tx".data), "12420".data),
  (("phoenix".data, "az".data), "38060".data),
  (("san antonio".data, "tx".data), "41700".data),
  (("las vegas".data, "nv".data), "29820".data),
  (("riverside".data, "ca".data), "40140".data),
  (("portland".data, "or".data), "39300".data),
  (("st. louis".data, "mo".data), "41180".data),
  (("saint louis".data, "mo".data), "41180".data),
  (("seattle".data, "wa".data), "42660".data),
  (("columbus".data, "oh".data), "18140".data),
  (("denver".data, "co".data), "19740".data),
  (("indianapolis".data, "in".data), "26900".data),
  (("nashville".data, "tn".data), "34980".data),
  (("new orleans".data, "la".data), "35380".data),
  (("sacramento".data, "ca".data), "40900".data),
  (("san jose".data, "ca".data), "41940".data),
  (("baltimore".data, "md".data), "12580".data),
  (("oklahoma city".data, "ok".data), "36420".data),
  (("jacksonville".data, "fl".data), "27260".data),
  (("tucson".data, "az".data), "46140".data),
  (("albuquerque".data, "nm".data), "10740".data),
  (("cleveland".data, "oh".data), "17140".data),
  (("memphis".data, "tn".data), "32820".data),
  (("milwaukee".data, "wi".data), "33260".data),
  (("louisville".data, "ky".data), "30460".data),
  (("madison".data, "wi".data), "31460".data),
  (("boise".data, "id".data), "14260".data),
  (("hartford".data, "ct".data), "25540".data),
  (("richmond".data, "va".data), "40060".data),
  (("virginia beach".data, "va".data), "47260".data),
  (("norfolk".data, "va".data), "47260".data),
  (("salt lake city".data, "ut".data), "41620".data),
  (("kansas city".data, "mo".data), "28140".data),
  (("cincinnati".data, "oh".data), "17460".data),
  (("pittsburgh".data, "pa".data), "38300".data),
  (("st. petersburg".data, "fl".data), "45300".data),
  (("saint petersburg".data, "fl".data), "45300".data),
  (("charlotte".data, "nc".data), "16740".data),
  (("raleigh".data, "nc".data), "38900".data),
  (("asheville".data, "nc".data), "11700".data),
  (("durham".data, "nc".data), "20500".data),
  (("chapel hill".data, "nc".data), "20500".data),
  (("greensboro".data, "nc".data), "24140".data),
  (("high point".data, "nc".data), "24140".data),
  (("winston-salem".data, "nc".data), "49180".data),
  (("winston salem".data, "nc".data), "49180".data),
  (("wilmington".data, "nc".data), "48900".data),
  (("fayetteville".data, "nc".data), "22180".data),
  (("hickory".data, "nc".data), "25860".data),
  (("burlington".data, "nc".data), "15500".data),
  (("rocky mount".data, "nc".data), "40580".data),
  (("cary".data, "nc".data), "38900".data),
  (("concord".data, "nc".data), "16740".data),
  (("gastonia".data, "nc".data), "16740".data),
  (("apex".data, "nc".data), "38900".data),
  (("wake forest".data, "nc".data), "38900".data),
  (("mooresville".data, "nc".data), "16740".data),
  (("huntersville".data, "nc".data), "16740".data),
  (("boone".data, "nc".data), "14380".data),
  (("greenville".data, "sc".data), "24660".data),
  (("columbia".data, "sc".data), "17900".data),
  (("charleston".data, "sc".data), "16580".data),
  (("myrtle beach".data, "sc".data), "34820".data),
  (("savannah".data, "ga".data), "42340".data),
  (("augusta".data, "ga".data), "12260".data),
  (("chattanooga".data, "tn".data), "16860".data),
  (("knoxville".data, "tn".data), "27740".data),
  (("huntsville".data, "al".data), "26300".data),
  (("birmingham".data, "al".data), "13820".data),
  (("mobile".data, "al".data), "33660".data),
  (("montgomery".data, "al".data), "33860".data),
  (("pensacola".data, "fl".data), "37860".data),
  (("daytona beach".data, "fl".data), "18880".data),
  (("cape coral".data, "fl".data), "38940".data),
  (("fort myers".data, "fl".data), "38940".data),
  (("charlottesville".data, "va".data), "13980".data),
  (("roanoke".data, "va".data), "44420".data),
  (("lynchburg".data, "va".data), "31340".data),
  (("el paso".data, "tx".data), "22100".data),
  (("corpus christi".data, "tx".data), "37100".data),
  (("lubbock".data, "tx".data), "30860".data),
  (("midland".data, "tx".data), "19124".data),
  (("odessa".data, "tx".data), "36220".data),
  (("amarillo".data, "tx".data), "11100".data),
  (("waco".data, "tx".data), "47380".data),
  (("killeen".data, "tx".data), "26620".data),
  (("college station".data, "tx".data), "18580".data),
  (("abilene".data, "tx".data), "13060".data),
  (("beaumont".data, "tx".data), "13140".data),
  (("boulder".data, "co".data), "14500".data),
  (("fort collins".data, "co".data), "24300".data),
  (("colorado springs".data, "co".data), "22660".data),
  (("pueblo".data, "co".data), "39380".data),
  (("santa fe".data, "nm".data), "42340".data),
  (("las cruces".data, "nm".data), "29740".data),
  (("ogden".data, "ut".data), "36260".data),
  (("provo".data, "ut".data), "39340".data),
  (("st. george".data, "ut".data), "39900".data),
  (("saint george".data, "ut".data), "39900".data),
  (("reno".data, "nv".data), "39220".data),
  (("carson city".data, "nv".data), "29460".data),
  (("bellingham".data, "wa".data), "13460".data),
  (("olympia".data, "wa".data), "36500".data),
  (("spokane".data, "wa".data), "44060".data),
  (("tacoma".data, "wa".data), "45104".data),
  (("kennewick".data, "wa".data), "28420".data),
  (("eugene".data, "or".data), "21660".data),
  (("salem".data, "or".data), "41420".data),
  (("bend".data, "or".data), "13460".data),
  (("medford".data, "or".data), "25420".data),
  (("corvallis".data, "or".data), "18700".data),
  (("fresno".data, "ca".data), "23420".data),
  (("bakersfield".data, "ca".data), "12540".data),
  (("stockton".data, "ca".data), "44700".data),
  (("modesto".data, "ca".data), "33700".data),
  (("santa barbara".data, "ca".data), "42220".data),
  (("santa rosa".data, "ca".data), "42100".data),
  (("oxnard".data, "ca".data), "37100".data),
  (("salinas".data, "ca".data), "41500".data),
  (("visalia".data, "ca".data), "46700".data),
  (("napa".data, "ca".data), "34900".data),
  (("merced".data, "ca".data), "32900".data),
  (("dayton".data, "oh".data), "19380".data),
  (("akron".data, "oh".data), "18020".data),
  (("toledo".data, "oh".data), "45780".data),
  (("grand rapids".data, "mi".data), "24340".data),
  (("kalamazoo".data, "mi".data), "28100".data),
  (("flint".data, "mi".data), "22420".data),
  (("lansing".data, "mi".data), "29620".data),
  (("omaha".data, "ne".data), "36540".data),
  (("lincoln".data, "ne".data), "31900".data),
  (("des moines".data, "ia".data), "19780".data),
  (("iowa city".data, "ia".data), "26980".data),
  (("fargo".data, "nd".data), "22060".data),
  (("bismarck".data, "nd".data), "13140".data),
  (("sioux falls".data, "sd".data), "43780".data),
  (("rapid city".data, "sd".data), "39380".data),
  (("green bay".data, "wi".data), "24580".data),
  (("springfield".data, "il".data), "44100".data),
  (("rockford".data, "il".data), "44100".data),
  (("wichita".data, "ks".data), "48620".data),
  (("topeka".data, "ks".data), "28100".data),
  (("springfield".data, "mo".data), "41140".data),
  (("joplin".data, "mo".data), "27900".data),
  (("buffalo".data, "ny".data), "15380".data),
  (("rochester".data, "ny".data), "40380".data),
  (("syracuse".data, "ny".data), "45060".data),
  (("albany".data, "ny".data), "10580".data),
  (("new haven".data, "ct".data), "35300".data),
  (("bridgeport".data, "ct".data), "14860".data),
  (("springfield".data, "ma".data), "44140".data),
  (("worcester".data, "ma".data), "49340".data),
  (("providence".data, "ri".data), "39300".data),
  (("manchester".data, "nh".data), "31700".data),
  (("portland".data, "me".data), "38860".data),
  (("burlington".data, "vt".data), "15540".data)
]

/-! ## Python string primitives (ASCII fragment), and dict lookups -/

/-- Python `\s` / `str.strip` whitespace, ASCII range. -/
def isPySpace (c : Char) : Bool :=
  c == ' ' || c == '\t' || c == '\n' || c == '\r' || c == Char.ofNat 11 || c == Char.ofNat 12

/-- Python `str.lower`, ASCII range. -/
def pyToLower (c : Char) : Char :=
  if 'A' ≤ c ∧ c ≤ 'Z' then Char.ofNat (c.toNat + 32) else c

/-- Python `str.upper`, ASCII range. -/
def pyToUpper (c : Char) : Char :=
  if 'a' ≤ c ∧ c ≤ 'z' then Char.ofNat (c.toNat - 32) else c

/-- Python `str.strip()`. -/
def pyStrip (l : LC) : LC :=
  ((l.dropWhile isPySpace).reverse.dropWhile isPySpace).reverse

/-- Model of `re.sub(r"\s+", " ", s)`: collapse each whitespace run to one space.
The flag records whether the previous character was whitespace. -/
def collapseWsAux : Bool → LC → LC
  | _, [] => []
  | prevSpace, c :: cs =>
    if isPySpace c then
      if prevSpace then collapseWsAux true cs else ' ' :: collapseWsAux true cs
    else c :: collapseWsAux false cs

def collapseWs (l : LC) : LC := collapseWsAux false l

/-- Model of `_normalize` (`src/data_sources/onet.py`, lines 418–420):
`re.sub(r"\s+", " ", title.lower().strip())`. -/
def pyNormalize (t : LC) : LC := collapseWs (pyStrip (t.map pyToLower))

/-- Python `dict.get` over an association list in literal order: the last
occurrence of a duplicated key wins, so look the key up in the reversed list. -/
def pyDictGet {α β : Type} [BEq α] (k : α) (l : List (α × β)) : Option β :=
  List.lookup k l.reverse

theorem lookup_mem {α β : Type} [BEq α] [LawfulBEq α] :
    ∀ {l : List (α × β)} {k : α} {v : β}, List.lookup k l = some v → (k, v) ∈ l := by
  intro l
  induction l with
  | nil => intro k v h; simp [List.lookup] at h
  | cons p l ih =>
    intro k v h
    rw [List.lookup] at h
    split at h
    · next heq =>
      have hkp : k = p.1 := eq_of_beq heq
      have hv : p.2 = v := by injection h
      have hpv : (k, v) = p := by rw [hkp, ← hv]
      rw [hpv]
      exact List.mem_cons_self _ _
    · exact List.mem_cons_of_mem _ (ih h)

theorem pyDictGet_mem {α β : Type} [BEq α] [LawfulBEq α] {l : List (α × β)} {k : α} {v : β}
    (h : pyDictGet k l = some v) : (k, v) ∈ l :=
  List.mem_reverse.mp (lookup_mem h)

/-- If a key occurs in the list, `List.lookup` finds a value. -/
theorem lookup_isSome_of_mem {α β : Type} [BEq α] [LawfulBEq α] :
    ∀ {l : List (α × β)} {k : α} {v : β}, (k, v) ∈ l → (List.lookup k l).isSome := by
  intro l
  induction l with
  | nil => intro k v h; simp at h
  | cons p l ih =>
    intro k v h
    rw [List.lookup]
    split
    · rfl
    · next heq =>
      rcases List.mem_cons.mp h with h1 | h1
      · exfalso
        rw [← h1] at heq
        simp at heq
      · exact ih h1

/-- With duplicate-free keys, `List.lookup` returns the value stored with the key. -/
theorem lookup_eq_of_mem_nodup {α β : Type} [BEq α] [LawfulBEq α] :
    ∀ {l : List (α × β)} {k : α} {v : β},
      (l.map Prod.fst).Nodup → (k, v) ∈ l → List.lookup k l = some v := by
  intro l
  induction l with
  | nil => intro k v _ h; simp at h
  | cons p l ih =>
    intro k v hnd h
    rw [List.map_cons, List.nodup_cons] at hnd
    rw [List.lookup]
    rcases List.mem_cons.mp h with h1 | h1
    · rw [← h1]
      simp
    · have hk : (k == p.1) = false := by
        simp only [beq_eq_false_iff_ne, ne_eq]
        intro hkp
        exact hnd.1 (by rw [← hkp]; exact List.mem_map_of_mem Prod.fst h1)
      rw [hk]
      exact ih hnd.2 h1

theorem pyDictGet_eq_of_mem_nodup {α β : Type} [BEq α] [LawfulBEq α]
    {l : List (α × β)} {k : α} {v : β}
    (hnd : (l.map Prod.fst).Nodup) (h : (k, v) ∈ l) : pyDictGet k l = some v := by
  unfold pyDictGet
  apply lookup_eq_of_mem_nodup
  · rw [List.map_reverse]
    exact List.nodup_reverse.mpr hnd
  · exact List.mem_reverse.mpr h

/-! ## The occupation matcher (`ONETClient.search_occupations`,
`src/data_sources/onet.py`, lines 441–485) -/

/-- Provenance of a match: the `source` field of a result
(`"local_map"`, `"fuzzy→<key>"`, `"onet_api"`). -/
inductive MatchSource where
  | localMap : MatchSource
  | fuzzy : LC → MatchSource
  | onetApi : MatchSource
deriving DecidableEq

/-- One search result `{"code", "title", "score", "source"}`. -/
structure OccMatch where
  code : LC
  title : LC
  score : ℚ
  source : MatchSource
deriving DecidableEq

/-- Step 1: exact local-map lookup (lines 450–457). -/
def exactStage (n : LC) : List OccMatch :=
  match pyDictGet n LOCAL_TITLE_MAP with
  | some ct => [⟨ct.1, ct.2, 1, MatchSource.localMap⟩]
  | none => []

/-- The fuzzy-match cutoff `0.68`, as a kernel-evaluable rational. -/
def fuzzyThreshold : ℚ := Rat.divInt 17 25

theorem fuzzyThreshold_eq : fuzzyThreshold = 17/25 := by
  rw [fuzzyThreshold, Rat.divInt_eq_div]
  norm_num

/-- Step 2 scoring of one map entry (lines 461–464): keep the entry as
`(ratio, code, title, key)` when its key scores at least `0.68` against the
normalized input. -/
def scoredEntry (n : LC) (e : LC × LC × LC) : Option (ℚ × LC × LC × LC) :=
  if fuzzyThreshold ≤ similarity n e.1 then
    some (similarity n e.1, e.2.1, e.2.2, e.1)
  else none

/-- Step 2 scoring (lines 460–464): every map entry whose key scores at least
`0.68` against the normalized input, as `(ratio, code, title, key)`. -/
def scoredList (n : LC) : List (ℚ × LC × LC × LC) :=
  LOCAL_TITLE_MAP.filterMap (scoredEntry n)

/-- Python `<` on strings: lexicographic by code point. -/
def lcLt : LC → LC → Bool
  | [], [] => false
  | [], _ :: _ => true
  | _ :: _, [] => false
  | a :: as, b :: bs => if a < b then true else if b < a then false else lcLt as bs

/-- Python `<` on the scored 4-tuples (lexicographic). -/
def entryLt (x y : ℚ × LC × LC × LC) : Bool :=
  if x.1 < y.1 then true else if y.1 < x.1 then false
  else if lcLt x.2.1 y.2.1 then true else if lcLt y.2.1 x.2.1 then false
  else if lcLt x.2.2.1 y.2.2.1 then true else if lcLt y.2.2.1 x.2.2.1 then false
  else lcLt x.2.2.2 y.2.2.2

def insertDesc (x : ℚ × LC × LC × LC) : List (ℚ × LC × LC × LC) → List (ℚ × LC × LC × LC)
  | [] => [x]
  | y :: ys => if entryLt x y then y :: insertDesc x ys else x :: y :: ys

/-- Model of `scored.sort(reverse=True)` (line 466): descending lexicographic order on
the tuples; ties are impossible because map keys are distinct. -/
def sortScoredDesc (l : List (ℚ × LC × LC × LC)) : List (ℚ × LC × LC × LC) :=
  l.foldr insertDesc []

/-- Append a result unless its code was already seen (the `seen_codes`
set in the source is always exactly the set of codes of `results`). -/
def dedupAppend (acc : List OccMatch) (r : OccMatch) : List OccMatch :=
  if acc.any (fun s => s.code == r.code) then acc else acc ++ [r]

/-- A fuzzy result (lines 468–476): score is `round(ratio, 3)`. -/
def mkFuzzy (e : ℚ × LC × LC × LC) : OccMatch :=
  ⟨e.2.1, e.2.2.1, round3 e.1, MatchSource.fuzzy e.2.2.2⟩

/-- An O*NET API result (lines 497–505); its score is whatever
`relevance_score` the collaborator reported (default `0.5`). -/
def mkApi (e : LC × LC × ℚ) : OccMatch := ⟨e.1, e.2.1, e.2.2, MatchSource.onetApi⟩

/-- Model of `search_occupations(title, max_results)` (lines 441–485).
`api = none` models unconfigured credentials (`self.username` falsy);
`api = some l` models configured credentials with `_api_search` returning `l`
(`[]` when the request raises). -/
def searchOccupations (title : LC) (maxResults : ℕ)
    (api : Option (List (LC × LC × ℚ))) : List OccMatch :=
  let n := pyNormalize title
  let afterFuzzy := List.foldl dedupAppend (exactStage n)
      (((sortScoredDesc (scoredList n)).take maxResults).map mkFuzzy)
  let afterApi :=
    if afterFuzzy.length < 2 ∧ api.isSome then
      List.foldl dedupAppend afterFuzzy ((api.getD []).map mkApi)
    else afterFuzzy
  afterApi.take maxResults

/-! ### Structural lemmas about the matcher pipeline -/

theorem mem_insertDesc {a x : ℚ × LC × LC × LC} :
    ∀ {l : List (ℚ × LC × LC × LC)}, a ∈ insertDesc x l ↔ a = x ∨ a ∈ l := by
  intro l
  induction l with
  | nil => simp [insertDesc]
  | cons y ys ih =>
    rw [insertDesc]
    split
    · simp only [List.mem_cons, ih]
      try tauto
    · simp only [List.mem_cons]
      try tauto

theorem mem_sortScoredDesc {a : ℚ × LC × LC × LC} :
    ∀ {l : List (ℚ × LC × LC × LC)}, a ∈ sortScoredDesc l ↔ a ∈ l := by
  intro l
  induction l with
  | nil => simp [sortScoredDesc]
  | cons y ys ih =>
    simp only [sortScoredDesc, List.foldr_cons] at *
    rw [mem_insertDesc, List.mem_cons, ih]

theorem mem_foldl_dedupAppend {r : OccMatch} :
    ∀ (l : List OccMatch) (init : List OccMatch),
      r ∈ List.foldl dedupAppend init l →
      r ∈ init ∨ (r ∈ l ∧ r.code ∉ init.map OccMatch.code) := by
  intro l
  induction l with
  | nil =>
    intro init h
    exact Or.inl h
  | cons x l ih =>
    intro init h
    rw [List.foldl_cons] at h
    rcases ih (dedupAppend init x) h with h1 | h1
    · unfold dedupAppend at h1
      split at h1
      · exact Or.inl h1
      · next hollow =>
        rcases List.mem_append.mp h1 with h2 | h2
        · exact Or.inl h2
        · have hrx : r = x := by simpa using h2
          right
          constructor
          · rw [hrx]; exact List.mem_cons_self _ _
          · rw [hrx]
            intro hmem
            apply hollow
            simp only [List.any_eq_true]
            obtain ⟨s, hs, hsx⟩ := List.mem_map.mp hmem
            exact ⟨s, hs, by simp [hsx]⟩
    · obtain ⟨hmem, hcode⟩ := h1
      have hsub : init.map OccMatch.code ⊆ (dedupAppend init x).map OccMatch.code := by
        unfold dedupAppend
        split
        · exact fun c hc => hc
        · intro c hc
          rw [List.map_append]
          exact List.mem_append_left _ hc
      exact Or.inr ⟨List.mem_cons_of_mem _ hmem, fun hc => hcode (hsub hc)⟩

theorem foldl_dedupAppend_distinct :
    ∀ (l : List OccMatch) (init : List OccMatch),
      init.Pairwise (fun a b => a.code ≠ b.code) →
      (List.foldl dedupAppend init l).Pairwise (fun a b => a.code ≠ b.code) := by
  intro l
  induction l with
  | nil => intro init h; exact h
  | cons x l ih =>
    intro init h
    rw [List.foldl_cons]
    apply ih
    unfold dedupAppend
    split
    · exact h
    · next hollow =>
      rw [List.pairwise_append]
      refine ⟨h, List.pairwise_singleton _ _, ?_⟩
      intro a ha b hb
      have hb' : b = x := by simpa using hb
      rw [hb']
      intro hcontra
      apply hollow
      simp only [List.any_eq_true]
      exact ⟨a, ha, by simp [hcontra]⟩

theorem foldl_dedupAppend_cons_head :
    ∀ (l : List OccMatch) (acc : List OccMatch) (x : OccMatch),
      ∃ t, List.foldl dedupAppend (x :: acc) l = x :: t := by
  intro l
  induction l with
  | nil => intro acc x; exact ⟨acc, rfl⟩
  | cons e l ih =>
    intro acc x
    rw [List.foldl_cons]
    unfold dedupAppend
    split
    · exact ih acc x
    · rw [List.cons_append]
      exact ih (acc ++ [e]) x

theorem mem_scoredList {n : LC} {e : ℚ × LC × LC × LC} (h : e ∈ scoredList n) :
    (e.2.2.2, e.2.1, e.2.2.1) ∈ LOCAL_TITLE_MAP ∧
    e.1 = similarity n e.2.2.2 ∧ fuzzyThreshold ≤ similarity n e.2.2.2 := by
  unfold scoredList at h
  rw [List.mem_filterMap] at h
  obtain ⟨a, ha, hfa⟩ := h
  unfold scoredEntry at hfa
  split at hfa
  · next hcond =>
    have he : e = (similarity n a.1, a.2.1, a.2.2, a.1) := by
      injection hfa with h'
      exact h'.symm
    rw [he]
    exact ⟨ha, rfl, hcond⟩
  · exact absurd hfa (by simp)

/-- Classify where a returned result came from: the exact stage, the fuzzy
stage (with its scored entry, and a code new relative to the exact stage), or
the external O*NET stage. -/
theorem searchOccupations_provenance (title : LC) (maxR : ℕ)
    (api : Option (List (LC × LC × ℚ))) (r : OccMatch)
    (hr : r ∈ searchOccupations title maxR api) :
    r ∈ exactStage (pyNormalize title) ∨
    (∃ e ∈ scoredList (pyNormalize title), r = mkFuzzy e ∧
       r.code ∉ (exactStage (pyNormalize title)).map OccMatch.code) ∨
    (∃ x, api = some x ∧ ∃ e ∈ x, r = mkApi e) := by
  unfold searchOccupations at hr
  simp only [] at hr
  have hr' := List.mem_of_mem_take hr
  have hfuzzy :
      ∀ s ∈ List.foldl dedupAppend (exactStage (pyNormalize title))
          (((sortScoredDesc (scoredList (pyNormalize title))).take maxR).map mkFuzzy),
        s ∈ exactStage (pyNormalize title) ∨
        (∃ e ∈ scoredList (pyNormalize title), s = mkFuzzy e ∧
          s.code ∉ (exactStage (pyNormalize title)).map OccMatch.code) := by
    intro s hs
    rcases mem_foldl_dedupAppend _ _ hs with h1 | ⟨h1, h2⟩
    · exact Or.inl h1
    · right
      obtain ⟨e, he, hse⟩ := List.mem_map.mp h1
      have he' : e ∈ scoredList (pyNormalize title) :=
        mem_sortScoredDesc.mp (List.mem_of_mem_take he)
      exact ⟨e, he', hse.symm, h2⟩
  split at hr'
  · next hcond =>
    rcases mem_foldl_dedupAppend _ _ hr' with h1 | ⟨h1, _⟩
    · rcases hfuzzy r h1 with h | h
      · exact Or.inl h
      · exact Or.inr (Or.inl h)
    · obtain ⟨e, he, hre⟩ := List.mem_map.mp h1
      obtain ⟨x, hx⟩ := Option.isSome_iff_exists.mp hcond.2
      refine Or.inr (Or.inr ⟨x, hx, e, ?_, hre.symm⟩)
      rw [hx] at he
      exact he
  · rcases hfuzzy r hr' with h | h
    · exact Or.inl h
    · exact Or.inr (Or.inl h)

theorem exactStage_shape (n : LC) :
    exactStage n = [] ∨
    ∃ ct, pyDictGet n LOCAL_TITLE_MAP = some ct ∧
      exactStage n = [⟨ct.1, ct.2, 1, MatchSource.localMap⟩] := by
  unfold exactStage
  rcases h : pyDictGet n LOCAL_TITLE_MAP with _ | ct
  · exact Or.inl rfl
  · exact Or.inr ⟨ct, rfl, rfl⟩

theorem mem_exactStage {n : LC} {r : OccMatch} (h : r ∈ exactStage n) :
    r.score = 1 ∧ r.source = MatchSource.localMap := by
  rcases exactStage_shape n with hs | ⟨ct, _, hs⟩
  · rw [hs] at h; simp at h
  · rw [hs] at h
    have : r = ⟨ct.1, ct.2, 1, MatchSource.localMap⟩ := by simpa using h
    rw [this]
    exact ⟨rfl, rfl⟩

set_option maxRecDepth 1000000

/-- Injective numeric encoding of a string (base 256 with a leading 1),
used to make the duplicate-freeness check of the title map cheap. -/
def keyCode : LC → ℕ := fun l => l.foldl (fun a c => a * 256 + c.toNat) 1

theorem titleMap_keys_nodup : (LOCAL_TITLE_MAP.map Prod.fst).Nodup := by
  have h : ((LOCAL_TITLE_MAP.map Prod.fst).map keyCode).Nodup := by decide
  exact h.of_map

theorem titleMap_key_short : ∀ e ∈ LOCAL_TITLE_MAP, e.1.length ≤ 100 := by decide

/-- A result produced by the fuzzy stage has score strictly below `1`: its key
differs from the normalized input (an equal key's code would already have been
emitted by the exact stage and skipped by the dedup), so the ratio is below
`1999/2000` and survives 3-decimal rounding below `1`. -/
theorem fuzzy_result_score_lt_one {n : LC} {e : ℚ × LC × LC × LC}
    (he : e ∈ scoredList n)
    (hnew : (mkFuzzy e).code ∉ (exactStage n).map OccMatch.code) :
    (mkFuzzy e).score < 1 := by
  obtain ⟨hmem, hsim, _⟩ := mem_scoredList he
  have hkey_ne : n ≠ e.2.2.2 := by
    intro hkn
    have hlook : pyDictGet n LOCAL_TITLE_MAP = some (e.2.1, e.2.2.1) := by
      apply pyDictGet_eq_of_mem_nodup titleMap_keys_nodup
      rw [hkn]
      exact hmem
    apply hnew
    unfold exactStage
    rw [hlook]
    simp [mkFuzzy]
  have hlen : e.2.2.2.length ≤ 100 := titleMap_key_short _ hmem
  have hlt : similarity n e.2.2.2 < 1999/2000 := similarity_lt_of_ne hkey_ne hlen
  have hr3 : round3 (similarity n e.2.2.2) < 1 := round3_lt_one hlt
  show round3 e.1 < 1
  rw [hsim]
  exact hr3

/-- When the normalized title has an exact entry, it heads the result list. -/
theorem searchOccupations_exact_head (title : LC) (maxR : ℕ) (hmax : 0 < maxR)
    (api : Option (List (LC × LC × ℚ))) (ct : LC × LC)
    (hct : pyDictGet (pyNormalize title) LOCAL_TITLE_MAP = some ct) :
    ∃ rest, searchOccupations title maxR api =
      ⟨ct.1, ct.2, 1, MatchSource.localMap⟩ :: rest := by
  unfold searchOccupations
  simp only []
  have hex : exactStage (pyNormalize title) =
      ⟨ct.1, ct.2, 1, MatchSource.localMap⟩ :: [] := by
    unfold exactStage
    rw [hct]
  rw [hex]
  obtain ⟨t1, ht1⟩ := foldl_dedupAppend_cons_head
    (((sortScoredDesc (scoredList (pyNormalize title))).take maxR).map mkFuzzy) []
    ⟨ct.1, ct.2, 1, MatchSource.localMap⟩
  rw [ht1]
  obtain ⟨m, hm⟩ := Nat.exists_eq_succ_of_ne_zero (Nat.pos_iff_ne_zero.mp hmax)
  split
  · obtain ⟨t2, ht2⟩ := foldl_dedupAppend_cons_head ((api.getD []).map mkApi) t1
      ⟨ct.1, ct.2, 1, MatchSource.localMap⟩
    rw [ht2, hm, List.take_succ_cons]
    exact ⟨_, rfl⟩
  · rw [hm, List.take_succ_cons]
    exact ⟨_, rfl⟩

/-- C3 (amended): among the results of the exact and fuzzy stages, confidence
is exactly `1.0` iff the method is `exact` (`local_map`); results appended by
the external O*NET stage carry the collaborator's own relevance score, which
the matcher does not clamp, so the equivalence is not guaranteed for them.
Whenever the normalized title has an exact entry in the static table, the
exact match heads the returned list with confidence `1.0`. -/
theorem claim_C3 (title : LC) (api : Option (List (LC × LC × ℚ))) :
    (∀ r ∈ searchOccupations title 5 api,
      r.source ≠ MatchSource.onetApi →
        (r.score = 1 ↔ r.source = MatchSource.localMap)) ∧
    (∀ ct, pyDictGet (pyNormalize title) LOCAL_TITLE_MAP = some ct →
      ∃ rest, searchOccupations title 5 api =
        ⟨ct.1, ct.2, 1, MatchSource.localMap⟩ :: rest) := by
  constructor
  · intro r hr hnapi
    rcases searchOccupations_provenance title 5 api r hr with
      h | ⟨e, he, hre, hnew⟩ | ⟨x, _, e, _, hre⟩
    · obtain ⟨hs, hsrc⟩ := mem_exactStage h
      exact ⟨fun _ => hsrc, fun _ => hs⟩
    · constructor
      · intro hscore
        exfalso
        have hlt := fuzzy_result_score_lt_one he (by rw [← hre]; exact hnew)
        rw [← hre, hscore] at hlt
        exact lt_irrefl _ hlt
      · intro hsrc
        exfalso
        rw [hre] at hsrc
        simp [mkFuzzy] at hsrc
    · exfalso
      apply hnapi
      rw [hre]
      rfl
  · intro ct hct
    exact searchOccupations_exact_head title 5 (by norm_num) api ct hct

/-- Witness for C3 at the spec's example: `match("senior data engineer")`
returns the exact entry first, with confidence `1.0` and method exact. -/
theorem claim_C3_witness :
    ∃ rest, searchOccupations "senior data engineer".data 5 none =
      ⟨"15-1243.00".data, "Database Architects".data, 1, MatchSource.localMap⟩ :: rest :=
  (claim_C3 "senior data engineer".data none).2
    ("15-1243.00".data, "Database Architects".data) (by decide)

/-- Evaluation helpers (each full-table similarity scan is done once, here). -/
theorem norm_cto : pyNormalize "cto".data = "cto".data := by decide

theorem scored_cto_c01 :
    TITLE_CHUNK_01.filterMap (scoredEntry "cto".data) = [] := by decide

theorem scored_cto_c02 :
    TITLE_CHUNK_02.filterMap (scoredEntry "cto".data) = [] := by decide

theorem scored_cto_c03 :
    TITLE_CHUNK_03.filterMap (scoredEntry "cto".data) = [] := by decide

theorem scored_cto_c04 :
    TITLE_CHUNK_04.filterMap (scoredEntry "cto".data) = [] := by decide

theorem scored_cto_c05 :
    TITLE_CHUNK_05.filterMap (scoredEntry "cto".data) = [] := by decide

theorem scored_cto_c06 :
    TITLE_CHUNK_06.filterMap (scoredEntry "cto".data) = [] := by decide

theorem scored_cto_c07 :
    TITLE_CHUNK_07.filterMap (scoredEntry "cto".data) = [] := by decide

theorem scored_cto_c08 :
    TITLE_CHUNK_08.filterMap (scoredEntry "cto".data) = [(Rat.divInt 1 1, "11-1021.00".data, "General and Operations Managers".data, "cto".data)] := by decide

theorem scored_cto_c09 :
    TITLE_CHUNK_09.filterMap (scoredEntry "cto".data) = [] := by decide

theorem scored_cto_c10 :
    TITLE_CHUNK_10.filterMap (scoredEntry "cto".data) = [] := by decide

theorem scored_cto_c11 :
    TITLE_CHUNK_11.filterMap (scoredEntry "cto".data) = [] := by decide

theorem scored_cto_c12 :
    TITLE_CHUNK_12.filterMap (scoredEntry "cto".data) = [] := by decide

theorem scored_cto_c13 :
    TITLE_CHUNK_13.filterMap (scoredEntry "cto".data) = [] := by decide

theorem scored_cto_c14 :
    TITLE_CHUNK_14.filterMap (scoredEntry "cto".data) = [] := by decide

theorem scored_cto_c15 :
    TITLE_CHUNK_15.filterMap (scoredEntry "cto".data) = [] := by decide

theorem scored_cto_c16 :
    TITLE_CHUNK_16.filterMap (scoredEntry "cto".data) = [] := by decide

theorem scored_cto_c17 :
    TITLE_CHUNK_17.filterMap (scoredEntry "cto".data) = [] := by decide

theorem scored_cto_c18 :
    TITLE_CHUNK_18.filterMap (scoredEntry "cto".data) = [] := by decide

theorem scored_cto_c19 :
    TITLE_CHUNK_19.filterMap (scoredEntry "cto".data) = [] := by decide

theorem scored_cto_c20 :
    TITLE_CHUNK_20.filterMap (scoredEntry "cto".data) = [] := by decide

theorem scored_cto_c21 :
    TITLE_CHUNK_21.filterMap (scoredEntry "cto".data) = [] := by decide

theorem scored_cto_c22 :
    TITLE_CHUNK_22.filterMap (scoredEntry "cto".data) = [] := by decide

theorem scored_cto_c23 :
    TITLE_CHUNK_23.filterMap (scoredEntry "cto".data) = [] := by decide

theorem scored_cto_c24 :
    TITLE_CHUNK_24.filterMap (scoredEntry "cto".data) = [] := by decide

theorem scored_cto_c25 :
    TITLE_CHUNK_25.filterMap (scoredEntry "cto".data) = [] := by decide

theorem scored_cto_c26 :
    TITLE_CHUNK_26.filterMap (scoredEntry "cto".data) = [] := by decide

theorem scored_cto_c27 :
    TITLE_CHUNK_27.filterMap (scoredEntry "cto".data) = [] := by decide

theorem scored_cto_c28 :
    TITLE_CHUNK_28.filterMap (scoredEntry "cto".data) = [] := by decide

theorem scored_cto_c29 :
    TITLE_CHUNK_29.filterMap (scoredEntry "cto".data) = [] := by decide

theorem scored_engineer_c01 :
    TITLE_CHUNK_01.filterMap (scoredEntry "engineer".data) = [] := by decide

theorem scored_engineer_c02 :
    TITLE_CHUNK_02.filterMap (scoredEntry "engineer".data) = [] := by decide

theorem scored_engineer_c03 :
    TITLE_CHUNK_03.filterMap (scoredEntry "engineer".data) = [(Rat.divInt 4 5, "15-1252.00".data, "Software Developers".data, "web engineer".data),
     (Rat.divInt 16 21, "15-1243.00".data, "Database Architects".data, "data engineer".data)] := by decide

theorem scored_engineer_c04 :
    TITLE_CHUNK_04.filterMap (scoredEntry "engineer".data) = [] := by decide

theorem scored_engineer_c05 :
    TITLE_CHUNK_05.filterMap (scoredEntry "engineer".data) = [(Rat.divInt 16 19, "15-2051.01".data, "Data Scientists, All Other".data, "ml engineer".data),
     (Rat.divInt 8 11, "15-2051.01".data, "Data Scientists, All Other".data, "sr ml engineer".data),
     (Rat.divInt 16 19, "15-2051.01".data, "Data Scientists, All Other".data, "ai engineer".data)] := by decide

theorem scored_engineer_c06 :
    TITLE_CHUNK_06.filterMap (scoredEntry "engineer".data) = [(Rat.divInt 16 19, "15-2041.00".data, "Statisticians".data, "bi engineer".data),
     (Rat.divInt 16 23, "15-1244.00".data, "Network and Computer Systems Administrators".data, "devops engineer".data),
     (Rat.divInt 8 11, "15-1241.00".data, "Computer Network Architects".data, "cloud engineer".data)] := by decide

theorem scored_engineer_c07 :
    TITLE_CHUNK_07.filterMap (scoredEntry "engineer".data) = [] := by decide

theorem scored_engineer_c08 :
    TITLE_CHUNK_08.filterMap (scoredEntry "engineer".data) = [(Rat.divInt 8 11, "11-9041.00".data, "Architectural and Engineering Managers".data, "vp engineering".data)] := by decide

theorem scored_engineer_c09 :
    TITLE_CHUNK_09.filterMap (scoredEntry "engineer".data) = [] := by decide

theorem scored_engineer_c10 :
    TITLE_CHUNK_10.filterMap (scoredEntry "engineer".data) = [] := by decide

theorem scored_engineer_c11 :
    TITLE_CHUNK_11.filterMap (scoredEntry "engineer".data) = [] := by decide

theorem scored_engineer_c12 :
    TITLE_CHUNK_12.filterMap (scoredEntry "engineer".data) = [] := by decide

theorem scored_engineer_c13 :
    TITLE_CHUNK_13.filterMap (scoredEntry "engineer".data) = [] := by decide

theorem scored_engineer_c14 :
    TITLE_CHUNK_14.filterMap (scoredEntry "engineer".data) = [] := by decide

theorem scored_engineer_c15 :
    TITLE_CHUNK_15.filterMap (scoredEntry "engineer".data) = [] := by decide

theorem scored_engineer_c16 :
    TITLE_CHUNK_16.filterMap (scoredEntry "engineer".data) = [] := by decide

theorem scored_engineer_c17 :
    TITLE_CHUNK_17.filterMap (scoredEntry "engineer".data) = [] := by decide

theorem scored_engineer_c18 :
    TITLE_CHUNK_18.filterMap (scoredEntry "engineer".data) = [] := by decide

theorem scored_engineer_c19 :
    TITLE_CHUNK_19.filterMap (scoredEntry "engineer".data) = [] := by decide

theorem scored_engineer_c20 :
    TITLE_CHUNK_20.filterMap (scoredEntry "engineer".data) = [] := by decide

theorem scored_engineer_c21 :
    TITLE_CHUNK_21.filterMap (scoredEntry "engineer".data) = [(Rat.divInt 8 11, "17-2051.00".data, "Civil Engineers".data, "civil engineer".data),
     (Rat.divInt 8 11, "17-2112.00".data, "Industrial Engineers".data, "plant engineer".data)] := by decide

theorem scored_engineer_c22 :
    TITLE_CHUNK_22.filterMap (scoredEntry "engineer".data) = [] := by decide

theorem scored_engineer_c23 :
    TITLE_CHUNK_23.filterMap (scoredEntry "engineer".data) = [] := by decide

theorem scored_engineer_c24 :
    TITLE_CHUNK_24.filterMap (scoredEntry "engineer".data) = [] := by decide

theorem scored_engineer_c25 :
    TITLE_CHUNK_25.filterMap (scoredEntry "engineer".data) = [] := by decide

theorem scored_engineer_c26 :
    TITLE_CHUNK_26.filterMap (scoredEntry "engineer".data) = [] := by decide

theorem scored_engineer_c27 :
    TITLE_CHUNK_27.filterMap (scoredEntry "engineer".data) = [] := by decide

theorem scored_engineer_c28 :
    TITLE_CHUNK_28.filterMap (scoredEntry "engineer".data) = [] := by decide

theorem scored_engineer_c29 :
    TITLE_CHUNK_29.filterMap (scoredEntry "engineer".data) = [] := by decide

theorem scoredList_eq (n : LC) : scoredList n =
    TITLE_CHUNK_01.filterMap (scoredEntry n) ++
    TITLE_CHUNK_02.filterMap (scoredEntry n) ++
    TITLE_CHUNK_03.filterMap (scoredEntry n) ++
    TITLE_CHUNK_04.filterMap (scoredEntry n) ++
    TITLE_CHUNK_05.filterMap (scoredEntry n) ++
    TITLE_CHUNK_06.filterMap (scoredEntry n) ++
    TITLE_CHUNK_07.filterMap (scoredEntry n) ++
    TITLE_CHUNK_08.filterMap (scoredEntry n) ++
    TITLE_CHUNK_09.filterMap (scoredEntry n) ++
    TITLE_CHUNK_10.filterMap (scoredEntry n) ++
    TITLE_CHUNK_11.filterMap (scoredEntry n) ++
    TITLE_CHUNK_12.filterMap (scoredEntry n) ++
    TITLE_CHUNK_13.filterMap (scoredEntry n) ++
    TITLE_CHUNK_14.filterMap (scoredEntry n) ++
    TITLE_CHUNK_15.filterMap (scoredEntry n) ++
    TITLE_CHUNK_16.filterMap (scoredEntry n) ++
    TITLE_CHUNK_17.filterMap (scoredEntry n) ++
    TITLE_CHUNK_18.filterMap (scoredEntry n) ++
    TITLE_CHUNK_19.filterMap (scoredEntry n) ++
    TITLE_CHUNK_20.filterMap (scoredEntry n) ++
    TITLE_CHUNK_21.filterMap (scoredEntry n) ++
    TITLE_CHUNK_22.filterMap (scoredEntry n) ++
    TITLE_CHUNK_23.filterMap (scoredEntry n) ++
    TITLE_CHUNK_24.filterMap (scoredEntry n) ++
    TITLE_CHUNK_25.filterMap (scoredEntry n) ++
    TITLE_CHUNK_26.filterMap (scoredEntry n) ++
    TITLE_CHUNK_27.filterMap (scoredEntry n) ++
    TITLE_CHUNK_28.filterMap (scoredEntry n) ++
    TITLE_CHUNK_29.filterMap (scoredEntry n) := by
  unfold scoredList LOCAL_TITLE_MAP
  simp only [List.filterMap_append]

theorem scored_cto : scoredList "cto".data =
    [(Rat.divInt 1 1, "11-1021.00".data, "General and Operations Managers".data,
      "cto".data)] := by
  rw [scoredList_eq, scored_cto_c01, scored_cto_c02, scored_cto_c03, scored_cto_c04, scored_cto_c05, scored_cto_c06, scored_cto_c07, scored_cto_c08, scored_cto_c09, scored_cto_c10, scored_cto_c11, scored_cto_c12, scored_cto_c13, scored_cto_c14, scored_cto_c15, scored_cto_c16, scored_cto_c17, scored_cto_c18, scored_cto_c19, scored_cto_c20, scored_cto_c21, scored_cto_c22, scored_cto_c23, scored_cto_c24, scored_cto_c25, scored_cto_c26, scored_cto_c27, scored_cto_c28, scored_cto_c29]
  try rfl

theorem search_cto_api :
    searchOccupations "cto".data 5 (some [("99-0000.00".data, "External Match".data, 1)]) =
    [⟨"11-1021.00".data, "General and Operations Managers".data, 1, MatchSource.localMap⟩,
     ⟨"99-0000.00".data, "External Match".data, 1, MatchSource.onetApi⟩] := by
  unfold searchOccupations
  simp only []
  rw [norm_cto, scored_cto]
  decide

/-- Counterexample to C3 as stated: with O*NET credentials configured and the
collaborator reporting a relevance score of `1.0`, the returned list contains
a result with confidence exactly `1.0` whose method is not exact. -/
theorem claim_C3_counterexample :
    ∃ r ∈ searchOccupations "cto".data 5
      (some [("99-0000.00".data, "External Match".data, 1)]),
      r.score = 1 ∧ r.source ≠ MatchSource.localMap := by
  rw [search_cto_api]
  decide

/-- C4 (amended): every fuzzy result's confidence is the similarity ratio
between the normalized input and the matched key, rounded to 3 decimal places
(Python `round(ratio, 3)`), and that ratio is at least `0.68`; keys scoring
below `0.68` never produce a result. -/
theorem claim_C4 (title : LC) (api : Option (List (LC × LC × ℚ)))
    (r : OccMatch) (k : LC) (hr : r ∈ searchOccupations title 5 api)
    (hsrc : r.source = MatchSource.fuzzy k) :
    r.score = round3 (similarity (pyNormalize title) k) ∧
    fuzzyThreshold ≤ similarity (pyNormalize title) k := by
  rcases searchOccupations_provenance title 5 api r hr with
    h | ⟨e, he, hre, _⟩ | ⟨x, _, e, _, hre⟩
  · obtain ⟨_, hsrc'⟩ := mem_exactStage h
    rw [hsrc'] at hsrc
    exact absurd hsrc (by simp)
  · obtain ⟨hmem, hsim, hth⟩ := mem_scoredList he
    have hk : e.2.2.2 = k := by
      rw [hre] at hsrc
      injection hsrc
    constructor
    · rw [hre]
      show round3 e.1 = round3 (similarity (pyNormalize title) k)
      rw [hsim, hk]
    · rw [← hk]
      exact hth
  · rw [hre] at hsrc
    exact absurd hsrc (by simp [mkApi])

/-- Evaluation helpers for the input `"engineer"` (one full-table scan). -/
theorem norm_engineer : pyNormalize "engineer".data = "engineer".data := by decide

theorem scored_engineer : scoredList "engineer".data =
    [(Rat.divInt 4 5, "15-1252.00".data, "Software Developers".data, "web engineer".data),
     (Rat.divInt 16 21, "15-1243.00".data, "Database Architects".data, "data engineer".data),
     (Rat.divInt 16 19, "15-2051.01".data, "Data Scientists, All Other".data, "ml engineer".data),
     (Rat.divInt 8 11, "15-2051.01".data, "Data Scientists, All Other".data, "sr ml engineer".data),
     (Rat.divInt 16 19, "15-2051.01".data, "Data Scientists, All Other".data, "ai engineer".data),
     (Rat.divInt 16 19, "15-2041.00".data, "Statisticians".data, "bi engineer".data),
     (Rat.divInt 16 23, "15-1244.00".data, "Network and Computer Systems Administrators".data, "devops engineer".data),
     (Rat.divInt 8 11, "15-1241.00".data, "Computer Network Architects".data, "cloud engineer".data),
     (Rat.divInt 8 11, "11-9041.00".data, "Architectural and Engineering Managers".data, "vp engineering".data),
     (Rat.divInt 8 11, "17-2051.00".data, "Civil Engineers".data, "civil engineer".data),
     (Rat.divInt 8 11, "17-2112.00".data, "Industrial Engineers".data, "plant engineer".data)] := by
  rw [scoredList_eq, scored_engineer_c01, scored_engineer_c02, scored_engineer_c03, scored_engineer_c04, scored_engineer_c05, scored_engineer_c06, scored_engineer_c07, scored_engineer_c08, scored_engineer_c09, scored_engineer_c10, scored_engineer_c11, scored_engineer_c12, scored_engineer_c13, scored_engineer_c14, scored_engineer_c15, scored_engineer_c16, scored_engineer_c17, scored_engineer_c18, scored_engineer_c19, scored_engineer_c20, scored_engineer_c21, scored_engineer_c22, scored_engineer_c23, scored_engineer_c24, scored_engineer_c25, scored_engineer_c26, scored_engineer_c27, scored_engineer_c28, scored_engineer_c29]
  try rfl

theorem search_engineer : searchOccupations "engineer".data 5 none =
    [⟨"15-2051.01".data, "Data Scientists, All Other".data, Rat.divInt 421 500,
      MatchSource.fuzzy "ml engineer".data⟩,
     ⟨"15-2041.00".data, "Statisticians".data, Rat.divInt 421 500,
      MatchSource.fuzzy "bi engineer".data⟩,
     ⟨"15-1252.00".data, "Software Developers".data, Rat.divInt 4 5,
      MatchSource.fuzzy "web engineer".data⟩,
     ⟨"15-1243.00".data, "Database Architects".data, Rat.divInt 381 500,
      MatchSource.fuzzy "data engineer".data⟩] := by
  unfold searchOccupations
  simp only []
  rw [norm_engineer, scored_engineer]
  decide

/-- Witness for C4: for `"engineer"`, the top fuzzy result matches the key
`"ml engineer"`; its confidence is the 3-decimal rounding of the ratio, and
the ratio clears the `0.68` threshold. -/
theorem claim_C4_witness :
    (⟨"15-2051.01".data, "Data Scientists, All Other".data, Rat.divInt 421 500,
      MatchSource.fuzzy "ml engineer".data⟩ : OccMatch).score =
        round3 (similarity (pyNormalize "engineer".data) "ml engineer".data) ∧
    fuzzyThreshold ≤ similarity (pyNormalize "engineer".data) "ml engineer".data :=
  claim_C4 "engineer".data none _ "ml engineer".data
    (by rw [search_engineer]; exact List.mem_cons_self _ _) rfl

/-- Counterexample to C4 as stated: confidence is the ratio rounded to
3 decimals, not the exact ratio — for `"engineer"` vs the key
`"ml engineer"` the ratio is `16/19` but the stored confidence is `0.842`. -/
theorem claim_C4_counterexample :
    ∃ r ∈ searchOccupations "engineer".data 5 none,
      r.source = MatchSource.fuzzy "ml engineer".data ∧
      r.score ≠ similarity (pyNormalize "engineer".data) "ml engineer".data := by
  rw [search_engineer, norm_engineer]
  decide

/-- C5: the result list never exceeds `max_results` and never contains two
results with the same occupation code. -/
theorem claim_C5 (title : LC) (maxR : ℕ) (api : Option (List (LC × LC × ℚ))) :
    (searchOccupations title maxR api).length ≤ maxR ∧
    (searchOccupations title maxR api).Pairwise (fun a b => a.code ≠ b.code) := by
  have hbase : (exactStage (pyNormalize title)).Pairwise (fun a b => a.code ≠ b.code) := by
    rcases exactStage_shape (pyNormalize title) with hs | ⟨ct, _, hs⟩ <;> rw [hs]
    · exact List.Pairwise.nil
    · exact List.pairwise_singleton _ _
  constructor
  · unfold searchOccupations
    simp only []
    rw [List.length_take]
    exact min_le_left _ _
  · unfold searchOccupations
    simp only []
    refine List.Pairwise.sublist (List.take_sublist _ _) ?_
    split
    · exact foldl_dedupAppend_distinct _ _ (foldl_dedupAppend_distinct _ _ hbase)
    · exact foldl_dedupAppend_distinct _ _ hbase

/-- C10: the fuzzy stage truncates the sorted scored list to `max_results`
entries before deduplicating by code.  For the input `"engineer"` the scored
list has 11 entries; the top five collapse to four results, yet the key
`"plant engineer"` scores at least `0.68` and its code `17-2112.00` is absent
from the returned list. -/
theorem claim_C10 :
    (searchOccupations "engineer".data 5 none).length < 5 ∧
    5 < (scoredList (pyNormalize "engineer".data)).length ∧
    ("plant engineer".data, "17-2112.00".data, "Industrial Engineers".data) ∈
      LOCAL_TITLE_MAP ∧
    fuzzyThreshold ≤ similarity (pyNormalize "engineer".data) "plant engineer".data ∧
    "17-2112.00".data ∉ (searchOccupations "engineer".data 5 none).map OccMatch.code := by
  rw [norm_engineer, search_engineer, scored_engineer]
  decide

/-! ## Geography resolution (`resolve_msa`, `src/utils/geo.py`, lines 433–508) -/

set_option maxRecDepth 1000000

/-- The result record of `resolve_msa`. -/
structure GeoRes where
  msaCode : Option LC
  msaName : Option LC
  cbsaFips : Option LC
  stateCode : Option LC
  stateName : LC
  stateAbbr : LC
deriving DecidableEq

/-- Split at the last comma (`str.rsplit(",", 1)`), `none` when there is none. -/
def splitAtLastComma (l : LC) : Option (LC × LC) :=
  match l.reverse.findIdx? (fun c => c == ',') with
  | none => none
  | some k => some (l.take (l.length - k - 1), l.drop (l.length - k))

/-- Model of `_parse_location` (lines 433–441): `'City, ST' → (city_lower, STATE_UPPER)`;
without a comma the whole (stripped) string is the city and the state is empty. -/
def parseLocation (s : LC) : LC × LC :=
  let t := pyStrip s
  match splitAtLastComma t with
  | some p => ((pyStrip p.1).map pyToLower, ((pyStrip p.2).map pyToUpper).take 2)
  | none => (t.map pyToLower, [])

/-- The city-only fallback scan (lines 477–481): the first entry whose city
matches, in table order, ignoring the state. -/
def firstCityMatch (city : LC) : Option LC :=
  (CITY_TO_CBSA.find? (fun e => e.1.1 == city)).map (fun e => e.2)

/-- The Census-geocoding fallback branch (lines 492–507).  `geocode` models
`_census_geocode` as a collaborator: `none` covers both an exception (caught
and logged) and a no-match result; `some cf` a reported CBSA GEOID. -/
def resolveCensus (geocode : LC → LC → Option LC) (city state : LC)
    (base : GeoRes) : GeoRes :=
  match geocode city state with
  | some cf =>
    if cf.isEmpty then base
    else
      match pyDictGet cf CBSA_TO_BLS with
      | some bn => { base with msaCode := some bn.1, msaName := some bn.2,
                               cbsaFips := some cf }
      | none => base
  | none => base

/-- Model of `resolve_msa(location_str)` (lines 444–508).  The `lru_cache` is sound to
omit: the function is deterministic in `(geocode, location_str)`. -/
def resolveMsa (geocode : LC → LC → Option LC) (loc : LC) : GeoRes :=
  let cs := parseLocation loc
  let city := cs.1
  let state := cs.2
  let stateFips := pyDictGet state STATE_FIPS
  let stateCode := stateFips.map (fun f => 'S' :: (f ++ "00000".data))
  let stateName :=
    match stateFips with
    | some f => (pyDictGet f STATE_NAMES).getD state
    | none => state
  let base : GeoRes := ⟨none, none, none, stateCode, stateName, state⟩
  let cbsa :=
    match pyDictGet (city, state.map pyToLower) CITY_TO_CBSA with
    | some c => some c
    | none => if state.isEmpty then none else firstCityMatch city
  match cbsa with
  | some c =>
    match pyDictGet c CBSA_TO_BLS with
    | some bn => { base with msaCode := some bn.1, msaName := some bn.2,
                             cbsaFips := some c }
    | none => resolveCensus geocode city state base
  | none => resolveCensus geocode city state base

/-- Every BLS metro area code in the static table follows the fixed template
`M` + 5-digit CBSA code + `00`. -/
theorem cbsaTable_template :
    ∀ e ∈ CBSA_TO_BLS, e.2.1 = 'M' :: (e.1 ++ ('0' :: '0' :: [])) := by decide

/-- C2 (amended): when the `(city, state)` pair is in the static city table
AND its CBSA code has an entry in the CBSA-to-BLS table, `resolve_msa`
returns that entry's metro, whose area code is the fixed template
`'M' + CBSA + '00'`; a pair whose CBSA is missing from the CBSA-to-BLS table
falls through to the geocoding collaborator and can resolve to no metro. -/
theorem claim_C2 (loc : LC) (geocode : LC → LC → Option LC) (c s cbsa : LC)
    (bn : LC × LC)
    (hparse : parseLocation loc = (c, s))
    (hcity : pyDictGet (c, s.map pyToLower) CITY_TO_CBSA = some cbsa)
    (hbls : pyDictGet cbsa CBSA_TO_BLS = some bn) :
    (resolveMsa geocode loc).msaCode = some bn.1 ∧
    bn.1 = 'M' :: (cbsa ++ ('0' :: '0' :: [])) := by
  constructor
  · simp only [resolveMsa, hparse, hcity, hbls]
  · have hmem : (cbsa, bn) ∈ CBSA_TO_BLS := pyDictGet_mem hbls
    exact cbsaTable_template _ hmem

/-- Witness for C2: `"Austin, TX"` resolves through CBSA `12420` to the BLS
area code `M1242000`. -/
theorem claim_C2_witness :
    (resolveMsa (fun _ _ => none) "Austin, TX".data).msaCode = some "M1242000".data ∧
    "M1242000".data = 'M' :: ("12420".data ++ ('0' :: '0' :: [])) :=
  claim_C2 "Austin, TX".data (fun _ _ => none) "austin".data "TX".data "12420".data
    ("M1242000".data, "Austin-Round Rock-Georgetown, TX".data)
    (by decide) (by decide) (by decide)

/-- Counterexample to C2 as stated: `("pittsburgh", "pa")` is in the static
city table, but its CBSA `38300` has no entry in the CBSA-to-BLS table, so
`resolve_msa` (with the geocoding collaborator degrading to no metro, as the
spec allows) returns no metro at all. -/
theorem claim_C2_counterexample :
    (("pittsburgh".data, "pa".data), "38300".data) ∈ CITY_TO_CBSA ∧
    parseLocation "Pittsburgh, PA".data = ("pittsburgh".data, "PA".data) ∧
    (resolveMsa (fun _ _ => none) "Pittsburgh, PA".data).msaCode = none := by
  refine ⟨by decide, by decide, ?_⟩
  decide

/-- C8 (amended): when the exact `(city, state)` pair is absent, the parsed
state is non-empty, and the first city-only match (in table order, ignoring
the state) has a CBSA with an entry in the CBSA-to-BLS table, that first
match determines the resolved CBSA and metro — even when its state differs
from the input's. -/
theorem claim_C8 (loc : LC) (geocode : LC → LC → Option LC) (c s cbsa : LC)
    (bn : LC × LC)
    (hparse : parseLocation loc = (c, s))
    (hstate : s ≠ [])
    (hmiss : pyDictGet (c, s.map pyToLower) CITY_TO_CBSA = none)
    (hfirst : firstCityMatch c = some cbsa)
    (hbls : pyDictGet cbsa CBSA_TO_BLS = some bn) :
    (resolveMsa geocode loc).cbsaFips = some cbsa ∧
    (resolveMsa geocode loc).msaCode = some bn.1 := by
  have hse : s.isEmpty = false := by
    cases s
    · exact absurd rfl hstate
    · rfl
  constructor <;>
    simp only [resolveMsa, hparse, hmiss, hse, hfirst, hbls, Bool.false_eq_true, if_false]

/-- Witness for C8: `"Portland, TX"` has no exact pair; the first city-only
match is the entry `("portland", "or")` — a different state — whose CBSA
`39300` maps (last duplicate wins) to Providence-Warwick, RI-MA. -/
theorem claim_C8_witness :
    CITY_TO_CBSA.find? (fun e => e.1.1 == "portland".data) =
      some (("portland".data, "or".data), "39300".data) ∧
    "or".data ≠ "tx".data ∧
    (resolveMsa (fun _ _ => none) "Portland, TX".data).cbsaFips = some "39300".data ∧
    (resolveMsa (fun _ _ => none) "Portland, TX".data).msaCode = some "M3930000".data := by
  refine ⟨by decide, by decide, ?_⟩
  exact claim_C8 "Portland, TX".data (fun _ _ => none) "portland".data "TX".data
    "39300".data ("M3930000".data, "Providence-Warwick, RI-MA".data)
    (by decide) (by decide) (by decide) (by decide) (by decide)

/-- Counterexample to C8 as stated: for `"Spokane, ID"` the exact pair is
absent and the city-only fallback finds `("spokane", "wa") → 44060`, but
`44060` has no CBSA-to-BLS entry, so the first matching entry does **not**
determine the metro — resolution falls through to geocoding and yields none. -/
theorem claim_C8_counterexample :
    pyDictGet ("spokane".data, "id".data) CITY_TO_CBSA = none ∧
    firstCityMatch "spokane".data = some "44060".data ∧
    parseLocation "Spokane, ID".data = ("spokane".data, "ID".data) ∧
    (resolveMsa (fun _ _ => none) "Spokane, ID".data).cbsaFips = none ∧
    (resolveMsa (fun _ _ => none) "Spokane, ID".data).msaCode = none := by
  refine ⟨by decide, by decide, by decide, ?_, ?_⟩ <;> decide

/-! ## SOC-code normalization (`SOCMapper.clean`, `src/utils/soc.py`, lines 58–69) -/

/-- Model of `SOCMapper.clean`: strip non-digits (`re.sub(r"[^\d]", "", ...)`, ASCII
digits), then re-format 6 digits as `XX-XXXX.00`, 8 digits as `XX-XXXX.XX`,
anything else unchanged. -/
def socClean (s : LC) : LC :=
  let d := s.filter (fun c => c.isDigit)
  if d.length = 6 then d.take 2 ++ '-' :: ((d.drop 2).take 4 ++ '.' :: '0' :: '0' :: [])
  else if d.length = 8 then
    d.take 2 ++ '-' :: ((d.drop 2).take 4 ++ '.' :: (d.drop 6).take 2)
  else s

/-- C9: normalizing a code already in canonical `XX-XXXX.XX` format returns
the identical string. -/
theorem claim_C9 (x1 x2 x3 x4 x5 x6 x7 x8 : Char)
    (h1 : x1.isDigit = true) (h2 : x2.isDigit = true) (h3 : x3.isDigit = true)
    (h4 : x4.isDigit = true) (h5 : x5.isDigit = true) (h6 : x6.isDigit = true)
    (h7 : x7.isDigit = true) (h8 : x8.isDigit = true) :
    socClean [x1, x2, '-', x3, x4, x5, x6, '.', x7, x8] =
      [x1, x2, '-', x3, x4, x5, x6, '.', x7, x8] := by
  have hdash : Char.isDigit '-' = false := by decide
  have hdot : Char.isDigit '.' = false := by decide
  simp [socClean, List.filter, h1, h2, h3, h4, h5, h6, h7, h8, hdash, hdot]

/-- Witness for C9 at the canonical code `15-1252.00`. -/
theorem claim_C9_witness : socClean "15-1252.00".data = "15-1252.00".data :=
  claim_C9 '1' '5' '1' '2' '5' '2' '0' '0' rfl rfl rfl rfl rfl rfl rfl rfl

/-! ## Live-postings adapter (`JSearchClient._fetch_salary`,
`src/data_sources/jsearch.py`, lines 29–98).

The network envelope (lines 44–62: request errors and empty payloads, which
return `None`) is a collaborator; the record below models the extracted
`salary_data` JSON object, with `none` for a missing (or null) field and the
numeric fields as exact rationals. -/

structure JsSalaryData where
  median_salary : Option ℚ := none
  median : Option ℚ := none
  p50_salary : Option ℚ := none
  p25_salary : Option ℚ := none
  percentile_25 : Option ℚ := none
  p75_salary : Option ℚ := none
  percentile_75 : Option ℚ := none
  min_salary : Option ℚ := none
  minimum_salary : Option ℚ := none
  max_salary : Option ℚ := none
  maximum_salary : Option ℚ := none
  job_count : Option ℚ := none
  count : Option ℚ := none
  salary_period : Option LC := none
deriving DecidableEq

/-- Python `a or b` over optional numbers: `None` and `0` are falsy. -/
def pyOrQ (a b : Option ℚ) : Option ℚ :=
  match a with
  | some x => if x = 0 then b else some x
  | none => b

/-- Model of `rate = str(salary_data.get("salary_period", "yearly")).lower()`. -/
def rateOf (d : JsSalaryData) : LC := (d.salary_period.getD "yearly".data).map pyToLower

def isHourlyRate (r : LC) : Bool :=
  r == "hourly".data || r == "hour".data || r == "hr".data

/-- Model of `to_annual` (lines 75–80): hourly values × 2080, then Python `round`;
`none` models the `float(v)` failure path. -/
def toAnnual (rate : LC) (v : Option ℚ) : Option ℤ :=
  v.map fun x => if isHourlyRate rate then pythonRound (qmulInt x 2080) else pythonRound x

/-- Python truthiness of an optional annualized value (`None` and `0` falsy). -/
def truthyZ : Option ℤ → Bool
  | some v => v != 0
  | none => false

/-- The observation record returned by `_fetch_salary` (lines 91–98). -/
structure JsObs where
  median : Option ℤ
  pct25 : Option ℤ
  pct75 : Option ℤ
  min : Option ℤ
  max : Option ℤ
  posting_count : Option ℚ
deriving DecidableEq

def jsMedian (d : JsSalaryData) : Option ℤ :=
  toAnnual (rateOf d) (pyOrQ (pyOrQ d.median_salary d.median) d.p50_salary)

def jsP25 (d : JsSalaryData) : Option ℤ :=
  toAnnual (rateOf d) (pyOrQ d.p25_salary d.percentile_25)

def jsP75 (d : JsSalaryData) : Option ℤ :=
  toAnnual (rateOf d) (pyOrQ d.p75_salary d.percentile_75)

def jsMin (d : JsSalaryData) : Option ℤ :=
  toAnnual (rateOf d) (pyOrQ d.min_salary d.minimum_salary)

def jsMax (d : JsSalaryData) : Option ℤ :=
  toAnnual (rateOf d) (pyOrQ d.max_salary d.maximum_salary)

/-- Model of `_fetch_salary` after JSON extraction (lines 64–98): absent iff none of
median, p25, min is present and nonzero (`if not median and not pct25 and
not min_sal: return None`). -/
def fetchSalary (d : JsSalaryData) : Option JsObs :=
  if !truthyZ (jsMedian d) && !truthyZ (jsP25 d) && !truthyZ (jsMin d) then none
  else some ⟨jsMedian d, jsP25 d, jsP75 d, jsMin d, jsMax d, pyOrQ d.job_count d.count⟩

/-- A response reporting exactly one salary-disclosing posting, with a median. -/
def jsRespOnePosting : JsSalaryData := { median_salary := some 100000, job_count := some 1 }

/-- A response with only a 25th-percentile salary and no median. -/
def jsRespP25Only : JsSalaryData := { p25_salary := some 80000 }

/-- C6 (amended): the live-postings adapter returns absent iff none of the
derived median, 25th-percentile, or minimum values is present and nonzero;
the reported posting count is copied into the observation and never gates the
result — the code has no minimum-evidence threshold of two postings. -/
theorem claim_C6 (d : JsSalaryData) :
    (fetchSalary d = none ↔
      truthyZ (jsMedian d) = false ∧ truthyZ (jsP25 d) = false ∧
      truthyZ (jsMin d) = false) ∧
    (∀ o, fetchSalary d = some o → o.posting_count = pyOrQ d.job_count d.count) := by
  unfold fetchSalary
  constructor
  · split
    · next hc =>
      simp only [Bool.and_eq_true, Bool.not_eq_true'] at hc
      exact ⟨fun _ => ⟨hc.1.1, hc.1.2, hc.2⟩, fun _ => rfl⟩
    · next hc =>
      constructor
      · intro h
        exact absurd h (by simp)
      · intro ⟨hm, hp, hmin⟩
        exfalso
        apply hc
        rw [hm, hp, hmin]
        rfl
  · intro o ho
    split at ho
    · exact absurd ho (by simp)
    · injection ho with ho'
      rw [← ho']

/-- Witness for C6: on the one-posting response the adapter still returns an
observation, whose posting count is the reported `1`. -/
theorem claim_C6_witness :
    (⟨some 100000, none, none, none, none, some 1⟩ : JsObs).posting_count =
      pyOrQ jsRespOnePosting.job_count jsRespOnePosting.count :=
  (claim_C6 jsRespOnePosting).2 _ (by decide)

/-- Counterexample to C6 as stated: a response carrying exactly one valid
salary-disclosing posting does **not** yield absent — the adapter returns an
observation (there is no minimum-evidence threshold in the code). -/
theorem claim_C6_counterexample :
    jsRespOnePosting.job_count = some 1 ∧
    fetchSalary jsRespOnePosting =
      some ⟨some 100000, none, none, none, none, some 1⟩ := by
  constructor
  · rfl
  · decide

/-! ## BLS OEWS adapter gate (`BLSClient.get_oews`,
`src/data_sources/bls.py`, lines 97–143).

The network envelope (request failure, `status != "REQUEST_SUCCEEDED"`) is a
collaborator; the record models the per-datatype latest values parsed from the
series (strings as BLS returns them, `none` for a missing series or value). -/

structure BlsSeriesValues where
  employment : Option LC := none
  mean : Option LC := none
  pct10 : Option LC := none
  pct25 : Option LC := none
  median : Option LC := none
  pct75 : Option LC := none
  pct90 : Option LC := none
  year : Option LC := none
deriving DecidableEq

/-- Python falsiness of `result.get("median")`: absent or empty string. -/
def blsMedianFalsy : Option LC → Bool
  | none => true
  | some s => s.isEmpty

structure BlsObs where
  median : Option LC
  pct25 : Option LC
  pct75 : Option LC
  mean : Option LC
  pct10 : Option LC
  pct90 : Option LC
  employment : Option LC
  year : Option LC
  area_code : LC
  area_type : LC
deriving DecidableEq

/-- Model of `get_oews` after a successful fetch: "Must have at least a median to be
useful" (lines 135–137). -/
def getOews (areaCode areaType : LC) (v : BlsSeriesValues) : Option BlsObs :=
  if blsMedianFalsy v.median then none
  else some ⟨v.median, v.pct25, v.pct75, v.mean, v.pct10, v.pct90,
             v.employment, v.year, areaCode, areaType⟩

/-- C7 (amended): the BLS adapter returns absent unless a median value is
present; the live-postings adapter requires at least one of median,
25th percentile, or minimum salary — so it can return an observation that has
no median when only ancillary fields are present. -/
theorem claim_C7 (areaCode areaType : LC) (v : BlsSeriesValues) (d : JsSalaryData) :
    (blsMedianFalsy v.median = true → getOews areaCode areaType v = none) ∧
    (∀ o, fetchSalary d = some o →
      truthyZ o.median = true ∨ truthyZ o.pct25 = true ∨ truthyZ o.min = true) := by
  constructor
  · intro h
    unfold getOews
    rw [h]
    rfl
  · intro o ho
    unfold fetchSalary at ho
    split at ho
    · exact absurd ho (by simp)
    · next hc =>
      injection ho with ho'
      rw [← ho']
      by_cases hm : truthyZ (jsMedian d) = true
      · exact Or.inl hm
      · by_cases hp : truthyZ (jsP25 d) = true
        · exact Or.inr (Or.inl hp)
        · by_cases hmin : truthyZ (jsMin d) = true
          · exact Or.inr (Or.inr hmin)
          · exfalso
            apply hc
            rw [Bool.not_eq_true] at hm hp hmin
            rw [hm, hp, hmin]
            rfl

/-- Witness for C7: a BLS response with no median yields absent, and the
JSearch p25-only observation satisfies the weakened median-or-ancillary
disjunction through its 25th percentile. -/
theorem claim_C7_witness :
    getOews "0000000".data "national".data {} = none ∧
    (truthyZ (⟨none, some 80000, none, none, none, none⟩ : JsObs).median = true ∨
     truthyZ (⟨none, some 80000, none, none, none, none⟩ : JsObs).pct25 = true ∨
     truthyZ (⟨none, some 80000, none, none, none, none⟩ : JsObs).min = true) :=
  ⟨(claim_C7 "0000000".data "national".data {} jsRespP25Only).1 rfl,
   (claim_C7 "0000000".data "national".data {} jsRespP25Only).2 _ (by decide)⟩

/-- Counterexample to C7 as stated: a response from which no median is
derivable (only a 25th percentile) still produces a wage observation from the
live-postings adapter — with `median = none`. -/
theorem claim_C7_counterexample :
    fetchSalary jsRespP25Only =
      some ⟨none, some 80000, none, none, none, none⟩ ∧
    jsMedian jsRespP25Only = none := by
  constructor
  · decide
  · rfl

/-! ## Median collection and blending (`src/app.py`, lines 135–273) -/

inductive WageSource where
  | bls : WageSource
  | jsearch : WageSource
  | usajobs : WageSource
deriving DecidableEq

inductive GeoLevel where
  | metro : GeoLevel
  | state : GeoLevel
  | national : GeoLevel
deriving DecidableEq

/-- One source's row at one geo level, as the app consumes it: the parsed
median (`safe_float(d.get("median"))` success modelled by `some`). -/
structure WageObs where
  source : WageSource
  level : GeoLevel
  median : Option ℚ
deriving DecidableEq

/-- The app's `if m:` check — the median must parse and be nonzero. -/
def usableMedian (o : WageObs) : Option ℚ :=
  match o.median with
  | some m => if m = 0 then none else some m
  | none => none

/-- Model of `local_medians` (lines 137, 155–164 and 189–198): metro- and state-level
medians from the blendable sources (BLS and JSearch); USAJobs rows never
reach this list (lines 216–253 render them outside the blend). -/
def localMedians (l : List WageObs) : List ℚ :=
  l.filterMap fun o =>
    if o.source ≠ WageSource.usajobs ∧
       (o.level = GeoLevel.metro ∨ o.level = GeoLevel.state) then
      usableMedian o
    else none

/-- Model of `natl_medians` (lines 138, 160–161, 194–195). -/
def natlMedians (l : List WageObs) : List ℚ :=
  l.filterMap fun o =>
    if o.source ≠ WageSource.usajobs ∧ o.level = GeoLevel.national then
      usableMedian o
    else none

/-- Addition `a + b` on ℚ built from integer arithmetic (kernel-evaluable). -/
def qadd (a b : ℚ) : ℚ :=
  Rat.divInt (a.num * (b.den : ℤ) + b.num * (a.den : ℤ)) ((a.den : ℤ) * (b.den : ℤ))

theorem qadd_eq (a b : ℚ) : qadd a b = a + b := by
  rw [qadd, Rat.divInt_eq_div]
  have ha : ((a.den : ℚ)) ≠ 0 := by
    exact_mod_cast a.den_nz
  have hb : ((b.den : ℚ)) ≠ 0 := by
    exact_mod_cast b.den_nz
  push_cast
  conv_rhs => rw [← Rat.num_div_den a, ← Rat.num_div_den b]
  field_simp
  try ring

def qSum : List ℚ → ℚ
  | [] => 0
  | x :: xs => qadd x (qSum xs)

theorem qSum_eq : ∀ l : List ℚ, qSum l = l.sum := by
  intro l
  induction l with
  | nil => rfl
  | cons x xs ih => rw [qSum, qadd_eq, ih, List.sum_cons]

/-- Model of `statistics.mean` as an exact rational (kernel-evaluable form). -/
def qMean (l : List ℚ) : ℚ :=
  Rat.divInt (qSum l).num (((qSum l).den : ℤ) * (l.length : ℤ))

theorem qMean_eq (l : List ℚ) : qMean l = l.sum / (l.length : ℚ) := by
  rw [qMean, Rat.divInt_eq_div]
  push_cast
  rw [← div_div, Rat.num_div_den, qSum_eq]

/-- Python `min` over a nonempty list (`0` for the empty list, unused). -/
def qMin : List ℚ → ℚ
  | [] => 0
  | x :: xs => xs.foldl min x

/-- Python `max` over a nonempty list (`0` for the empty list, unused). -/
def qMax : List ℚ → ℚ
  | [] => 0
  | x :: xs => xs.foldl max x

inductive BlendScope where
  | localScope : BlendScope
  | nationalFallback : BlendScope
deriving DecidableEq

/-- The blended-estimate panel's data (lines 258–273): `value` is
`round(statistics.mean(blend_medians))`, the displayed range is
`round(min(...)) – round(max(...))`, the count is `len(blend_medians)`. -/
structure BlendedEstimate where
  value : ℤ
  lo : ℤ
  hi : ℤ
  contributorCount : ℕ
  scope : BlendScope
deriving DecidableEq

/-- The blending step (lines 257–273): `blend_medians = local_medians if
local_medians else natl_medians`; absent when both are empty. -/
def blendMedians (obs : List WageObs) : Option BlendedEstimate :=
  let lm := localMedians obs
  let nm := natlMedians obs
  let bm := if lm.isEmpty then nm else lm
  if bm.isEmpty then none
  else
    some ⟨pythonRound (qMean bm), pythonRound (qMin bm), pythonRound (qMax bm),
          bm.length,
          if lm.isEmpty then BlendScope.nationalFallback else BlendScope.localScope⟩

/-- C1 (amended): with at least one usable blendable metro/state median, the
estimate is built from exactly those medians — value is their arithmetic mean
rounded half-to-even to the nearest dollar, the range is their (rounded)
min and max, the count is their number, and the scope is local; with none,
the national medians are used the same way with scope national-fallback; with
neither, no estimate is produced. -/
theorem claim_C1 (obs : List WageObs) :
    (localMedians obs ≠ [] → blendMedians obs =
      some ⟨pythonRound (qMean (localMedians obs)), pythonRound (qMin (localMedians obs)),
            pythonRound (qMax (localMedians obs)), (localMedians obs).length,
            BlendScope.localScope⟩) ∧
    (localMedians obs = [] → natlMedians obs ≠ [] → blendMedians obs =
      some ⟨pythonRound (qMean (natlMedians obs)), pythonRound (qMin (natlMedians obs)),
            pythonRound (qMax (natlMedians obs)), (natlMedians obs).length,
            BlendScope.nationalFallback⟩) ∧
    (localMedians obs = [] → natlMedians obs = [] → blendMedians obs = none) := by
  refine ⟨?_, ?_, ?_⟩
  · intro h
    have hlm : (localMedians obs).isEmpty = false := by
      cases hl : localMedians obs
      · exact absurd hl h
      · rfl
    simp [blendMedians, hlm]
  · intro h hn
    have hnm : (natlMedians obs).isEmpty = false := by
      cases hl : natlMedians obs
      · exact absurd hl hn
      · rfl
    simp [blendMedians, h, hnm]
  · intro h hn
    simp [blendMedians, h, hn]

/-- The spec's blending example, with a USAJobs row added to exhibit its
exclusion: metro 90000 (BLS) + state 95000 (JSearch) blend to 92500; the
national 80000 and the federal row do not contribute. -/
def blendSpecExample : List WageObs :=
  [⟨WageSource.bls, GeoLevel.metro, some 90000⟩,
   ⟨WageSource.jsearch, GeoLevel.state, some 95000⟩,
   ⟨WageSource.bls, GeoLevel.national, some 80000⟩,
   ⟨WageSource.usajobs, GeoLevel.metro, some 555555⟩]

/-- Witness for C1 at the spec's example: value 92500, range (90000, 95000),
two contributors, local scope. -/
theorem claim_C1_witness :
    blendMedians blendSpecExample =
      some ⟨92500, 90000, 95000, 2, BlendScope.localScope⟩ := by
  have h := (claim_C1 blendSpecExample).1 (by decide)
  rw [h]
  decide

/-- Two local medians whose mean is not an integer. -/
def blendHalfExample : List WageObs :=
  [⟨WageSource.bls, GeoLevel.metro, some 90000⟩,
   ⟨WageSource.bls, GeoLevel.state, some 95001⟩]

/-- Counterexample to C1 as stated: the estimate's value is the rounded mean,
not the arithmetic mean — for medians 90000 and 95001 the mean is 92500.5 but
the value is 92500 (half-to-even). -/
theorem claim_C1_counterexample :
    ∃ e, blendMedians blendHalfExample = some e ∧
      ((e.value : ℚ)) ≠ qMean (localMedians blendHalfExample) ∧
      qMean (localMedians blendHalfExample) = Rat.divInt 185001 2 := by
  refine ⟨⟨92500, 90000, 95001, 2, BlendScope.localScope⟩, by decide, ?_, by decide⟩
  intro hcontra
  have h2 : qMean (localMedians blendHalfExample) = Rat.divInt 185001 2 := by decide
  rw [h2] at hcontra
  have h3 : ((92500 : ℤ) : ℚ) = Rat.divInt 185001 2 := hcontra
  rw [Rat.divInt_eq_div] at h3
  norm_num at h3
